import Mathlib

/-!
# Milestone1 server: request router and query validation

A shallow embedding of `Milestone1/src/server.js` and `Milestone1/src/htmlResponses.js`.

* `JS`: the ECMAScript / Node built-ins the two files call (`Number`, `JSON.stringify`,
  `Buffer.byteLength`, string tests), modelled as total executable functions.
* `HtmlResponses`: the static responder (asset loading with placeholders, the three handlers).
* `Server`: `sendJson`, `parsePokemonQuery` and the router `onRequest`.

A handler run is the ordered list of effects it performs: the calls it makes on the data
provider and the calls it makes on the `response` object.
-/

namespace JS

/-! ## Number values and `Number(string)` -/

/-- An ECMAScript Number. A finite value is a sign and a magnitude `num / den` in lowest terms
(every double is a dyadic rational, so `den` is a power of two); `fin true 0 1` is `-0`. -/
inductive JSNumber where
  | nan
  | inf (neg : Bool)
  | fin (neg : Bool) (num den : Nat)
  deriving DecidableEq, Repr

namespace JSNumber

/-- The value of the numeric literal `50` / `0` etc. -/
def ofNat (n : Nat) : JSNumber := fin false n 1

/-- The test `Number.isNaN(x)`. -/
def isNaN : JSNumber → Bool
  | nan => true
  | _ => false

/-- The comparison `x < 0`: false for NaN, for both zeros and for every positive value. -/
def ltZero : JSNumber → Bool
  | nan => false
  | inf neg => neg
  | fin neg num _ => neg && decide (num ≠ 0)

/-- The comparison `x >= 0`: false for NaN, true for both zeros. -/
def geZero : JSNumber → Bool
  | nan => false
  | inf neg => !neg
  | fin neg num _ => !neg || decide (num = 0)

/-- The test `Number.isInteger(x)`: finite with no fractional part. -/
def isInteger : JSNumber → Bool
  | fin _ _ den => decide (den = 1)
  | _ => false

end JSNumber

/-- Number of binary digits of `n`; `fuel` bounds the number of halvings. -/
def bitLength : Nat → Nat → Nat
  | 0, _ => 0
  | fuel + 1, n => if n = 0 then 0 else bitLength fuel (n / 2) + 1

/-- The dyadic `m * 2 ^ (-k)` as a fraction in lowest terms. -/
def reduceDyadic : Nat → Nat → Nat × Nat
  | 0, m => (m, 1)
  | k + 1, m =>
    if m = 0 then (0, 1)
    else if m % 2 = 0 then reduceDyadic k (m / 2)
    else (m, 2 ^ (k + 1))

/-- Round the positive rational `a / b` to the nearest IEEE-754 binary64 value, ties to even
(53 significant bits, least exponent `-1074`). The rounded value `m * 2 ^ u` has
`m ≤ 2 ^ 53`, so it reaches `2 ^ 1024`, and becomes Infinity, exactly when `u > 971` or
`u = 971` and `m = 2 ^ 53`. -/
def roundToDouble (neg : Bool) (a b : Nat) : JSNumber :=
  if a = 0 then .fin neg 0 1 else
  -- `e` is the exponent of the leading bit: `2 ^ e ≤ a / b < 2 ^ (e + 1)`
  let t : Int := (bitLength a a : Int) - (bitLength b b : Int)
  let e : Int := if b * 2 ^ t.toNat ≤ a * 2 ^ (-t).toNat then t else t - 1
  -- `u` is the exponent of the unit in the last place
  let u : Int := max (e - 52) (-1074)
  let n := a * 2 ^ (-u).toNat
  let d := b * 2 ^ u.toNat
  let f := n / d
  let r := n % d
  let m := if 2 * r < d then f else if d < 2 * r then f + 1 else if f % 2 = 0 then f else f + 1
  if 971 < u ∨ (u = 971 ∧ 2 ^ 53 ≤ m) then .inf neg
  else
    let q := reduceDyadic (-u).toNat (m * 2 ^ u.toNat)
    .fin neg q.1 q.2

/-- The characters `StringToNumber` strips from both ends: WhiteSpace and LineTerminator. -/
def isStrWhiteSpaceChar (c : Char) : Bool :=
  let n := c.toNat
  n = 0x09 || n = 0x0A || n = 0x0B || n = 0x0C || n = 0x0D || n = 0x20 || n = 0xA0 ||
  n = 0x1680 || (0x2000 ≤ n && n ≤ 0x200A) || n = 0x2028 || n = 0x2029 || n = 0x202F ||
  n = 0x205F || n = 0x3000 || n = 0xFEFF

/-- Strip leading and trailing white space. -/
def trimChars (cs : List Char) : List Char :=
  ((cs.dropWhile isStrWhiteSpaceChar).reverse.dropWhile isStrWhiteSpaceChar).reverse

/-- The value of one digit in the given radix (letters in either case for radix 16). -/
def digitValue (radix : Nat) (c : Char) : Option Nat :=
  let n := c.toNat
  let v := if 48 ≤ n && n ≤ 57 then some (n - 48)
    else if 97 ≤ n && n ≤ 102 then some (n - 87)
    else if 65 ≤ n && n ≤ 70 then some (n - 55)
    else none
  match v with
  | some d => if d < radix then some d else none
  | none => none

/-- The value of a run of digits in the given radix, most significant first; `none` when a
character is not a digit of that radix. -/
def digitsValue (radix : Nat) : Nat → List Char → Option Nat
  | acc, [] => some acc
  | acc, c :: cs =>
    match digitValue radix c with
    | some d => digitsValue radix (acc * radix + d) cs
    | none => none

/-- A non-empty run of digits and its value. -/
def digitsValue1 (radix : Nat) (cs : List Char) : Option Nat :=
  if cs.isEmpty then none else digitsValue radix 0 cs

/-- An ASCII decimal digit. -/
def isDecimalDigit (c : Char) : Bool := 48 ≤ c.toNat && c.toNat ≤ 57

/-- ExponentPart: `e` or `E`, an optional sign, and at least one decimal digit; an absent
exponent part is exponent `0`. -/
def parseExponent : List Char → Option Int
  | [] => some 0
  | c :: rest =>
    if c = 'e' || c = 'E' then
      match rest with
      | '+' :: ds => (digitsValue1 10 ds).map Int.ofNat
      | '-' :: ds => (digitsValue1 10 ds).map (fun n => -Int.ofNat n)
      | ds => (digitsValue1 10 ds).map Int.ofNat
    else none

/-- StrUnsignedDecimalLiteral: `Infinity`, `digits[.[digits]][exp]` or `.digits[exp]`. -/
def parseUnsignedDecimal (neg : Bool) (cs : List Char) : JSNumber :=
  if cs = "Infinity".toList then .inf neg else
  let intPart := cs.takeWhile isDecimalDigit
  let rest := cs.dropWhile isDecimalDigit
  let hasDot := rest.head? = some '.'
  let fracPart := if hasDot then rest.tail.takeWhile isDecimalDigit else []
  let rest2 := if hasDot then rest.tail.dropWhile isDecimalDigit else rest
  if intPart.isEmpty && fracPart.isEmpty then .nan else
  match digitsValue 10 0 (intPart ++ fracPart), parseExponent rest2 with
  | some n, some ex =>
    let k : Int := ex - fracPart.length
    roundToDouble neg (n * 10 ^ k.toNat) (10 ^ (-k).toNat)
  | _, _ => .nan

/-- StringToNumber on the characters of a string: the empty (or all-white-space) string is
`+0`; binary, octal and hexadecimal integer literals carry no sign; anything outside the
StringNumericLiteral grammar is NaN. -/
def stringToNumber (s : List Char) : JSNumber :=
  match trimChars s with
  | [] => .fin false 0 1
  | '0' :: p :: ds =>
    if p = 'x' || p = 'X' then
      match digitsValue1 16 ds with | some n => roundToDouble false n 1 | none => .nan
    else if p = 'o' || p = 'O' then
      match digitsValue1 8 ds with | some n => roundToDouble false n 1 | none => .nan
    else if p = 'b' || p = 'B' then
      match digitsValue1 2 ds with | some n => roundToDouble false n 1 | none => .nan
    else parseUnsignedDecimal false ('0' :: p :: ds)
  | '+' :: ds => parseUnsignedDecimal false ds
  | '-' :: ds => parseUnsignedDecimal true ds
  | ds => parseUnsignedDecimal false ds

/-- The conversion `Number(s)` for a string argument. -/
def Number (s : String) : JSNumber := stringToNumber s.toList

/-! ## Strings, JSON and buffers -/

/-- The test `s.startsWith(t)`. -/
def startsWith (s t : String) : Bool := t.toList.isPrefixOf s.toList

/-- The test `s.includes(t)`: `t` occurs in `s` as a contiguous run of characters. -/
def includes (s t : String) : Bool := s.toList.tails.any (fun r => t.toList.isPrefixOf r)

/-- A JSON-serialisable value. Numbers are restricted to integers of magnitude at most
`2 ^ 53` (identifiers and counts): each of them is a Number, and its serialisation is its
decimal digits. An object is the list of its properties in enumeration order. -/
inductive Json where
  | null
  | bool (b : Bool)
  | num (n : Int)
  | str (s : String)
  | arr (xs : List Json)
  | obj (members : List (String × Json))

/-- One lower-case hexadecimal digit. -/
def hexDigit (n : Nat) : Char :=
  if n < 10 then Char.ofNat (48 + n) else Char.ofNat (87 + n)

/-- QuoteJSONString on one character: the two-character escapes, a `u` escape for the other
control characters, everything else verbatim. -/
def quoteChar (c : Char) : List Char :=
  if c = '"' then ['\\', '"']
  else if c = '\\' then ['\\', '\\']
  else if c.toNat = 8 then ['\\', 'b']
  else if c.toNat = 9 then ['\\', 't']
  else if c.toNat = 10 then ['\\', 'n']
  else if c.toNat = 12 then ['\\', 'f']
  else if c.toNat = 13 then ['\\', 'r']
  else if c.toNat < 32 then
    ['\\', 'u', '0', '0', hexDigit (c.toNat / 16), hexDigit (c.toNat % 16)]
  else [c]

/-- QuoteJSONString. -/
def quote (s : String) : String :=
  String.mk ('"' :: (s.toList.flatMap quoteChar ++ ['"']))

mutual
/-- The serialisation `JSON.stringify(v)`, with no indentation. -/
def stringify : Json → String
  | .null => "null"
  | .bool b => if b then "true" else "false"
  | .num n => toString n
  | .str s => quote s
  | .arr xs => "[" ++ stringifyElements xs ++ "]"
  | .obj members => "\x7b" ++ stringifyMembers members ++ "\x7d"
/-- The comma-separated elements of an array. -/
def stringifyElements : List Json → String
  | [] => ""
  | [x] => stringify x
  | x :: y :: rest => stringify x ++ "," ++ stringifyElements (y :: rest)
/-- The comma-separated `key:value` members of an object. -/
def stringifyMembers : List (String × Json) → String
  | [] => ""
  | [(k, v)] => quote k ++ ":" ++ stringify v
  | (k, v) :: y :: rest => quote k ++ ":" ++ stringify v ++ "," ++ stringifyMembers (y :: rest)
end

/-- A Node `Buffer`: a sequence of bytes. -/
abbrev Buffer := List UInt8

/-- The buffer `Buffer.from(s, 'utf8')`. -/
def Buffer.fromUtf8 (s : String) : Buffer := s.toList.flatMap String.utf8EncodeChar

/-- The count `Buffer.byteLength(s, 'utf8')` for a string: the length of its UTF-8
encoding. -/
def byteLength (s : String) : Nat := s.utf8ByteSize

/-- A thrown `Error`, identified by its `message`. -/
structure JSError where
  message : String
  deriving DecidableEq, Repr

deriving instance DecidableEq for Except

end JS

open JS

/-! ## Requests, the data provider and effects -/

/-- A value of a property of the object `querystring.parse` returns: a string, or an array of
strings when the key is repeated in the query string. -/
inductive QVal where
  | str (s : String)
  | arr (ss : List String)
  deriving DecidableEq, Repr

/-- The object returned by `querystring.parse`, as the list of its properties. -/
abbrev Query := List (String × QVal)

/-- Property access `query.key`; `none` is `undefined`. -/
def Query.get (query : Query) (key : String) : Option QVal := query.lookup key

/-- Truthiness of a property value, as tested by `?:` and by `||`: `undefined` and the empty
string are falsy; a non-empty string and every array are truthy. -/
def truthy : Option QVal → Bool
  | none => false
  | some (.str s) => decide (s ≠ "")
  | some (.arr _) => true

/-- The conversion `Number(v)` for a property value: `undefined` gives NaN, and an array is
first converted to a string by joining its elements with commas. -/
def toNumber : Option QVal → JSNumber
  | none => .nan
  | some (.str s) => Number s
  | some (.arr ss) => Number (",".intercalate ss)

/-- The options record built by `parsePokemonQuery` and passed to `pokedex.getAll`. -/
structure Options where
  type : Option QVal
  name : Option QVal
  limit : JSNumber
  offset : JSNumber
  deriving DecidableEq, Repr

/-- A catalog entry: a record, serialised as a JSON object (an object is always truthy). -/
structure Entry where
  fields : List (String × Json)

/-- The JSON value of an entry. -/
def Entry.toJson (e : Entry) : Json := .obj e.fields

/-- The data provider `pokedex` (an external module over an immutable catalog): each operation
is a function of its argument, and a call either returns or throws. -/
structure Pokedex where
  getAll : Options → Except JSError (List Entry)
  getById : Option QVal → Except JSError (Option Entry)
  getTypes : Except JSError (List String)

/-- What is passed to `response.write`: a string or a buffer. -/
inductive Chunk where
  | text (s : String)
  | bytes (b : Buffer)
  deriving DecidableEq

/-- One effect of a handler: a call on the data provider or a call on `response`. Every
`writeHead` of the program passes exactly the two headers `Content-Type` and `Content-Length`. -/
inductive Event where
  | getAll (opts : Options)
  | getById (id : Option QVal)
  | getTypes
  | writeHead (status : Nat) (contentType : String) (contentLength : Nat)
  | write (chunk : Chunk)
  | end_
  deriving DecidableEq

/-- A `response.write` call. -/
def Event.isWrite : Event → Bool
  | .write _ => true
  | _ => false

/-- A call on the data provider. -/
def Event.isProviderCall : Event → Bool
  | .getAll _ => true
  | .getById _ => true
  | .getTypes => true
  | _ => false

/-- The run of a handler: its effects in order, and the exception that escaped it, if any. -/
structure Run where
  events : List Event
  thrown : Option JSError := none
  deriving DecidableEq

/-- The status line and headers of a run: the arguments of its first `writeHead`. -/
def Run.head (r : Run) : Option (Nat × String × Nat) :=
  r.events.findSome? fun e =>
    match e with
    | .writeHead status contentType contentLength => some (status, contentType, contentLength)
    | _ => none

/-- The chunks a run passes to `response.write`, in order. -/
def Run.written (r : Run) : List Chunk :=
  r.events.filterMap fun e =>
    match e with
    | .write chunk => some chunk
    | _ => none

/-- The arguments of every `response.writeHead` call of a run, in order. -/
def Run.heads (r : Run) : List (Nat × String × Nat) :=
  r.events.filterMap fun e =>
    match e with
    | .writeHead status contentType contentLength => some (status, contentType, contentLength)
    | _ => none

/-- The number of `response.end` calls of a run. -/
def Run.ends (r : Run) : Nat := r.events.count .end_

/-- The parts of an incoming request the router reads: `request.method`, the `pathname` and
`query` fields of `url.parse(request.url)` (`query` is `null` when the URL has no `?`), and
`request.headers.accept`. -/
structure Request where
  method : String
  pathname : String
  query : Option String
  accept : Option String
  deriving DecidableEq, Repr

/-- Node library functions the router calls whose results are left unconstrained. -/
structure Runtime where
  /-- Is `querystring.parse`, applied to `parsedUrl.query`. -/
  querystringParse : Option String → Query
  /-- Is `String.prototype.toLowerCase`. -/
  toLowerCase : String → String

namespace HtmlResponses

/-! ## htmlResponses.js -/

/-- The three buffers loaded at start-up. -/
structure Assets where
  indexFile : Buffer
  docsFile : Buffer
  cssFile : Buffer
  deriving DecidableEq

/-- The outcome of the three `fs.readFileSync` calls: a buffer, or the error thrown. -/
structure Reads where
  index : Except JSError Buffer
  docs : Except JSError Buffer
  css : Except JSError Buffer

/-- Module initialisation: each `try { x = fs.readFileSync(p) } catch { x = Buffer.from(..) }`. -/
def load (reads : Reads) : Assets :=
  { indexFile := match reads.index with
      | .ok b => b
      | .error _ => Buffer.fromUtf8 "<h1>Client file not found</h1>"
    docsFile := match reads.docs with
      | .ok b => b
      | .error _ => Buffer.fromUtf8 "<h1>Docs file not found</h1>"
    cssFile := match reads.css with
      | .ok b => b
      | .error _ => Buffer.fromUtf8 "body \x7b font-family: sans-serif; \x7d" }

/-- Handler `getIndex`; `Buffer.byteLength` of a buffer is its length. -/
def getIndex (assets : Assets) : List Event :=
  [.writeHead 200 "text/html" assets.indexFile.length, .write (.bytes assets.indexFile), .end_]

/-- Handler `getCSS`. -/
def getCSS (assets : Assets) : List Event :=
  [.writeHead 200 "text/css" assets.cssFile.length, .write (.bytes assets.cssFile), .end_]

/-- Handler `getDocs`. -/
def getDocs (assets : Assets) : List Event :=
  [.writeHead 200 "text/html" assets.docsFile.length, .write (.bytes assets.docsFile), .end_]

end HtmlResponses

namespace Server

/-! ## server.js -/

/-- The object literal `{ message: .., id: .. }` used for every error body. -/
def errorBody (message id : String) : Json :=
  .obj [("message", .str message), ("id", .str id)]

/-- The object literal `{ count: types.length, types }`. -/
def typesBody (types : List String) : Json :=
  .obj [("count", .num types.length), ("types", .arr (types.map Json.str))]

/-- Function `sendJson(response, status, bodyObj, isHead = false)`. -/
def sendJson (status : Nat) (bodyObj : Json) (isHead : Bool := false) : List Event :=
  let bodyString := stringify bodyObj
  let head := Event.writeHead status "application/json" (byteLength bodyString)
  if isHead then [head, .end_]
  else [head, .write (.text bodyString), .end_]

/-- The inline sequence of the HEAD branches: stringify the body only to measure it, then
`response.writeHead(status, {..})` and `response.end()`. -/
def headOnly (status : Nat) (bodyObj : Json) : List Event :=
  let body := stringify bodyObj
  [.writeHead status "application/json" (byteLength body), .end_]

/-- The object literal `parsed` of `parsePokemonQuery` (lines 42-47), before validation. -/
def parsedQuery (query : Query) : Options :=
  { type := if truthy (query.get "type") then query.get "type" else none
    name := if truthy (query.get "name") then query.get "name" else none
    limit := if truthy (query.get "limit") then toNumber (query.get "limit") else .ofNat 50
    offset := if truthy (query.get "offset") then toNumber (query.get "offset") else .ofNat 0 }

/-- Function `parsePokemonQuery(query)`: returns the options or throws. -/
def parsePokemonQuery (query : Query) : Except JSError Options :=
  let parsed := parsedQuery query
  if parsed.limit.isNaN || parsed.limit.ltZero then
    .error ⟨"Invalid limit parameter"⟩
  else if parsed.offset.isNaN || parsed.offset.ltZero then
    .error ⟨"Invalid offset parameter"⟩
  else
    .ok parsed

/-- The HEAD branch of `/api/pokemon` (lines 98-119). Whatever the `try` block throws, from
`parsePokemonQuery` or from `getAll`, the `catch` answers 400 with its message. -/
def listPokemonHead (rt : Runtime) (pokedex : Pokedex) (request : Request) : Run :=
  let query := rt.querystringParse request.query
  match parsePokemonQuery query with
  | .error err => { events := headOnly 400 (errorBody err.message "badRequest") }
  | .ok opts =>
    match pokedex.getAll opts with
    | .error err =>
      { events := Event.getAll opts :: headOnly 400 (errorBody err.message "badRequest") }
    | .ok results =>
      { events := Event.getAll opts :: headOnly 200 (.arr (results.map Entry.toJson)) }

/-- The GET branch of `/api/pokemon` (lines 121-131). -/
def listPokemonGet (rt : Runtime) (pokedex : Pokedex) (request : Request) : Run :=
  let query := rt.querystringParse request.query
  match parsePokemonQuery query with
  | .error err => { events := sendJson 400 (errorBody err.message "badRequest") false }
  | .ok opts =>
    match pokedex.getAll opts with
    | .error err =>
      { events := Event.getAll opts :: sendJson 400 (errorBody err.message "badRequest") false }
    | .ok results =>
      { events := Event.getAll opts :: sendJson 200 (.arr (results.map Entry.toJson)) false }

/-- The lookup-by-id branch (lines 141-175). An exception thrown by `getById` is not caught. -/
def lookupPokemon (rt : Runtime) (pokedex : Pokedex) (request : Request) : Run :=
  let query := rt.querystringParse request.query
  let id := query.get "id"
  if request.method = "HEAD" then
    match pokedex.getById id with
    | .error err => { events := [.getById id], thrown := some err }
    | .ok none => { events := Event.getById id :: headOnly 404 (errorBody "Not found" "notFound") }
    | .ok (some found) => { events := Event.getById id :: headOnly 200 found.toJson }
  else if request.method = "GET" then
    match pokedex.getById id with
    | .error err => { events := [.getById id], thrown := some err }
    | .ok none => { events := Event.getById id :: sendJson 404 (errorBody "Not found" "notFound") }
    | .ok (some found) => { events := Event.getById id :: sendJson 200 found.toJson }
  else
    { events := sendJson 405 (errorBody "Method Not Allowed" "methodNotAllowed") }

/-- The `/api/types` branch (lines 180-198). An exception thrown by `getTypes` is not caught. -/
def listTypes (pokedex : Pokedex) (request : Request) : Run :=
  if request.method = "HEAD" then
    match pokedex.getTypes with
    | .error err => { events := [.getTypes], thrown := some err }
    | .ok types => { events := Event.getTypes :: headOnly 200 (typesBody types) }
  else if request.method = "GET" then
    match pokedex.getTypes with
    | .error err => { events := [.getTypes], thrown := some err }
    | .ok types => { events := Event.getTypes :: sendJson 200 (typesBody types) }
  else
    { events := sendJson 405 (errorBody "Method Not Allowed" "methodNotAllowed") }

/-- The test `parsedUrl.query && parsedUrl.query.includes('id=')` of line 139: `null` and the
empty string are falsy. -/
def queryIncludesId : Option String → Bool
  | none => false
  | some q => q != "" && includes q "id="

/-- The router `onRequest(request, response)` from line 66 on, for a request whose URL
`url.parse` has parsed to a string `pathname` (the fields of `Request`). Line 65 and the
`null` pathname are put in front of it by `onRequestFromUrl`. -/
def onRequest (rt : Runtime) (assets : HtmlResponses.Assets) (pokedex : Pokedex)
    (request : Request) : Run :=
  let pathname := request.pathname
  let method := request.method
  -- Route static files first
  if pathname = "/" then { events := HtmlResponses.getIndex assets }
  else if pathname = "/style.css" then { events := HtmlResponses.getCSS assets }
  else if pathname = "/docs" then { events := HtmlResponses.getDocs assets }
  -- API endpoints under /api
  else if startsWith pathname "/api" then
    let accept := rt.toLowerCase (request.accept.getD "")
    let wantsJson := accept = "" || includes accept "application/json"
    -- the statement `if (!wantsJson) { }` has an empty body
    let _ : Unit := if !wantsJson then () else ()
    if pathname = "/api/pokemon" then
      if method = "HEAD" then listPokemonHead rt pokedex request
      else if method = "GET" then listPokemonGet rt pokedex request
      else { events := sendJson 405 (errorBody "Method Not Allowed" "methodNotAllowed") }
    else if pathname = "/api/pokemon/id" ||
        (pathname = "/api/pokemon" && queryIncludesId request.query) then
      lookupPokemon rt pokedex request
    else if pathname = "/api/types" then listTypes pokedex request
    -- Unknown API endpoint
    else { events := sendJson 404 (errorBody "API endpoint not found" "notFound") }
  else
    -- Non-existent non-API route
    let body := stringify (errorBody "Resource not found" "notFound")
    { events := [.writeHead 404 "application/json" (byteLength body), .write (.text body), .end_] }

/-- The fields of the object returned by `url.parse(request.url)` that the handler reads; each
of them may be `null`. -/
structure UrlObject where
  pathname : Option String
  query : Option String
  deriving DecidableEq, Repr

/-- An incoming request as Node hands it to the handler: `request.method`, `request.url` and
`request.headers.accept`. -/
structure IncomingMessage where
  method : String
  url : String
  accept : Option String
  deriving DecidableEq, Repr

/-- The whole handler `onRequest(request, response)`, from line 65 on. The library function
`url.parse` is a parameter: it returns an object or throws. It is called outside any `try`,
so what it throws escapes the handler before anything is written. On a `null` pathname the
three `===` tests of lines 70-80 are false and `pathname.startsWith` of line 86 throws a
TypeError, which escapes as well. On a string pathname the handler goes on as `onRequest`. -/
def onRequestFromUrl (urlParse : String → Except JSError UrlObject) (rt : Runtime)
    (assets : HtmlResponses.Assets) (pokedex : Pokedex) (request : IncomingMessage) : Run :=
  match urlParse request.url with
  | .error err => { events := [], thrown := some err }
  | .ok parsedUrl =>
    match parsedUrl.pathname with
    | none =>
      { events := []
        thrown := some ⟨"Cannot read properties of null (reading \x27startsWith\x27)"⟩ }
    | some pathname =>
      onRequest rt assets pokedex ⟨request.method, pathname, parsedUrl.query, request.accept⟩

end Server

/-! ## The data provider as the specification describes it -/

namespace Spec

/-- The whole number of entries a non-negative Number stands for (`none`: no bound, for
`Infinity`); NaN and negative values stand for none at all. -/
def count : JSNumber → Option Nat
  | .fin false num den => some (num / den)
  | .inf false => none
  | _ => some 0

/-- Skip the first `n` entries. -/
def skip : Option Nat → List Entry → List Entry
  | some n, xs => xs.drop n
  | none, _ => []

/-- Keep at most `n` entries. -/
def atMost : Option Nat → List Entry → List Entry
  | some n, xs => xs.take n
  | none, xs => xs

/-- Modelled from the spec: `getAll` of the `pokedex` module, whose source is missing. The spec
gives it as a scan of an immutable, insertion-ordered in-memory list that filters by
`type`/`name` and paginates: the result is "sliced starting at O from the full filtered set"
and has at most `L` entries. The filter test itself is a parameter. -/
def getAll (catalog : List Entry) (keep : Options → Entry → Bool) (opts : Options) :
    List Entry :=
  atMost (count opts.limit) (skip (count opts.offset) (catalog.filter (keep opts)))

/-- The comparison `k <= x` between a length and a Number. -/
def lengthLe (k : Nat) : JSNumber → Bool
  | .fin false num den => decide (k * den ≤ num)
  | .fin true num _ => decide (k = 0 ∧ num = 0)
  | .inf neg => !neg
  | .nan => false

end Spec

/-! ## Concrete fixtures -/

namespace Example

/-- Split a character list at every occurrence of `sep`. -/
def splitAtChar (sep : Char) : List Char → List (List Char)
  | [] => [[]]
  | c :: cs =>
    if c = sep then [] :: splitAtChar sep cs
    else
      match splitAtChar sep cs with
      | [] => [[c]]
      | piece :: pieces => (c :: piece) :: pieces

/-- Add one key/value pair to the object built so far: a repeated key turns its value into an
array and appends to it. -/
def addKeyValue : Query → String → String → Query
  | [], key, value => [(key, .str value)]
  | (k, v) :: rest, key, value =>
    if k = key then
      match v with
      | .str old => (k, .arr [old, value]) :: rest
      | .arr olds => (k, .arr (olds ++ [value])) :: rest
    else (k, v) :: addKeyValue rest key value

/-- Decode one side of a pair that has no percent escape: `+` stands for a space. -/
def plusToSpace (cs : List Char) : String :=
  String.mk (cs.map fun c => if c = '+' then ' ' else c)

/-- A concrete `querystring.parse` for query strings that contain no `%` escape and fewer than
1000 pairs: pairs are separated by `&`, empty pairs are skipped, a pair is cut at its first
`=` and a pair without `=` has the empty string as its value. -/
def querystringParse : Option String → Query
  | none => []
  | some qs =>
    ((splitAtChar '&' qs.toList).filter (fun piece => !piece.isEmpty)).foldl
      (fun obj piece =>
        addKeyValue obj (plusToSpace (piece.takeWhile (· ≠ '=')))
          (plusToSpace (piece.dropWhile (· ≠ '=')).tail))
      []

/-- A concrete `url.parse` for the request targets of the examples. A target in origin form
(it starts with `/` and has no `#`, no backslash and no character the parser escapes) is cut
at its first `?`; without a `?` the query is `null`. No other target is in its domain but
`http://[::1/x`, whose host is an IPv6 literal that is never closed: there `url.parse` throws
a TypeError with the message `Invalid URL`. -/
def urlParse (url : String) : Except JSError Server.UrlObject :=
  match url.toList with
  | '/' :: rest =>
    match rest.dropWhile (· ≠ '?') with
    | [] => .ok ⟨some (String.mk ('/' :: rest)), none⟩
    | _ :: query =>
      .ok ⟨some (String.mk ('/' :: rest.takeWhile (· ≠ '?'))), some (String.mk query)⟩
  | _ => .error ⟨"Invalid URL"⟩

/-- A runtime for examples; lower-casing is the ASCII one. -/
def runtime : Runtime :=
  { querystringParse := querystringParse
    toLowerCase := fun s => s.map Char.toLower }

/-- Assets when only the stylesheet could be read. -/
def assets : HtmlResponses.Assets :=
  HtmlResponses.load
    { index := .error ⟨"ENOENT"⟩
      docs := .error ⟨"ENOENT"⟩
      css := .ok (Buffer.fromUtf8 "p \x7b\x7d") }

/-- A two-entry catalog. -/
def catalog : List Entry :=
  [ ⟨[("id", .num 1), ("name", .str "Bulbasaur"), ("type", .str "Grass")]⟩,
    ⟨[("id", .num 4), ("name", .str "Charmander"), ("type", .str "Fire")]⟩ ]

/-- The string value of a field of an entry (numbers by their digits). -/
def field (e : Entry) (key : String) : String :=
  match e.fields.lookup key with
  | some (.str s) => s
  | some (.num n) => toString n
  | _ => ""

/-- Filter test: an entry passes when each of `type` and `name` is absent or equal to its
field. -/
def keep (opts : Options) (e : Entry) : Bool :=
  (match opts.type with
    | some (.str t) => field e "type" == t
    | _ => true) &&
  (match opts.name with
    | some (.str n) => field e "name" == n
    | _ => true)

/-- A provider over `catalog`: `getAll` as the specification describes it, `getById` by the
`id` field, `getTypes` in catalog order. -/
def pokedex : Pokedex :=
  { getAll := fun opts => .ok (Spec.getAll catalog keep opts)
    getById := fun id =>
      match id with
      | some (.str s) => .ok (catalog.find? fun e => field e "id" == s)
      | _ => .ok none
    getTypes := .ok ["Grass", "Fire"] }

/-- A provider whose `getAll` throws, whatever the options. -/
def failingPokedex : Pokedex :=
  { getAll := fun _ => .error ⟨"catalog unavailable"⟩
    getById := fun _ => .ok none
    getTypes := .ok [] }

/-- A provider with a type name outside ASCII. -/
def accentedPokedex : Pokedex :=
  { getAll := fun _ => .ok []
    getById := fun _ => .ok none
    getTypes := .ok ["Fée"] }

/-- Reads in which only `docs.html` could be read. -/
def reads : HtmlResponses.Reads :=
  { index := .error ⟨"ENOENT"⟩
    docs := .ok (Buffer.fromUtf8 "<p>docs</p>")
    css := .error ⟨"ENOENT"⟩ }

end Example

/-! ## Query validation -/

namespace Server

/-- The validation test of `parsePokemonQuery`, on the parsed record. -/
theorem parsePokemonQuery_ok_iff (query : Query) (opts : Options) :
    parsePokemonQuery query = .ok opts ↔
      (opts = parsedQuery query ∧ (parsedQuery query).limit.isNaN = false ∧
        (parsedQuery query).limit.ltZero = false ∧ (parsedQuery query).offset.isNaN = false ∧
        (parsedQuery query).offset.ltZero = false) := by
  unfold parsePokemonQuery
  cases h1 : (parsedQuery query).limit.isNaN <;> cases h2 : (parsedQuery query).limit.ltZero <;>
    cases h3 : (parsedQuery query).offset.isNaN <;>
    cases h4 : (parsedQuery query).offset.ltZero <;> simp [h1, h2, h3, h4, eq_comm]

/-- C1: `parsePokemonQuery` throws exactly when the parsed limit is NaN or negative or the
parsed offset is NaN or negative, and returns the parsed options record exactly when none of
these holds; in particular it throws for `limit=-1` and for `limit=abc`. -/
theorem parsePokemonQuery_throws_iff :
    (∀ query : Query,
      ((∃ err, parsePokemonQuery query = .error err) ↔
        ((parsedQuery query).limit.isNaN = true ∨ (parsedQuery query).limit.ltZero = true ∨
          (parsedQuery query).offset.isNaN = true ∨ (parsedQuery query).offset.ltZero = true)) ∧
      (parsePokemonQuery query = .ok (parsedQuery query) ↔
        ¬((parsedQuery query).limit.isNaN = true ∨ (parsedQuery query).limit.ltZero = true ∨
          (parsedQuery query).offset.isNaN = true ∨ (parsedQuery query).offset.ltZero = true))) ∧
    (Example.querystringParse (some "limit=-1") = [("limit", .str "-1")] ∧
      (parsedQuery [("limit", .str "-1")]).limit = .fin true 1 1 ∧
      parsePokemonQuery [("limit", .str "-1")] = .error ⟨"Invalid limit parameter"⟩) ∧
    (Example.querystringParse (some "limit=abc") = [("limit", .str "abc")] ∧
      (parsedQuery [("limit", .str "abc")]).limit = .nan ∧
      parsePokemonQuery [("limit", .str "abc")] = .error ⟨"Invalid limit parameter"⟩) := by
  refine ⟨fun query => ⟨?_, ?_⟩, by decide, by decide⟩
  · unfold parsePokemonQuery
    cases h1 : (parsedQuery query).limit.isNaN <;> cases h2 : (parsedQuery query).limit.ltZero <;>
      cases h3 : (parsedQuery query).offset.isNaN <;>
      cases h4 : (parsedQuery query).offset.ltZero <;> simp [h1, h2, h3, h4]
  · rw [parsePokemonQuery_ok_iff]
    cases h1 : (parsedQuery query).limit.isNaN <;> cases h2 : (parsedQuery query).limit.ltZero <;>
      cases h3 : (parsedQuery query).offset.isNaN <;>
      cases h4 : (parsedQuery query).offset.ltZero <;> simp [h1, h2, h3, h4]

/-! ## Routing -/

/-- The router on the path `/api/pokemon`: the list branch is entered for every method and
every query string, since the path test of line 97 comes first and every arm returns. -/
theorem onRequest_pokemon (rt : Runtime) (assets : HtmlResponses.Assets) (pokedex : Pokedex)
    (method : String) (query accept : Option String) :
    onRequest rt assets pokedex ⟨method, "/api/pokemon", query, accept⟩ =
      if method = "HEAD" then listPokemonHead rt pokedex ⟨method, "/api/pokemon", query, accept⟩
      else if method = "GET" then
        listPokemonGet rt pokedex ⟨method, "/api/pokemon", query, accept⟩
      else { events := sendJson 405 (errorBody "Method Not Allowed" "methodNotAllowed") } := by
  have h : startsWith "/api/pokemon" "/api" = true := by decide
  simp [onRequest, h]

/-- The router on the path `/api/pokemon/id`. -/
theorem onRequest_pokemon_id (rt : Runtime) (assets : HtmlResponses.Assets) (pokedex : Pokedex)
    (method : String) (query accept : Option String) :
    onRequest rt assets pokedex ⟨method, "/api/pokemon/id", query, accept⟩ =
      lookupPokemon rt pokedex ⟨method, "/api/pokemon/id", query, accept⟩ := by
  have h : startsWith "/api/pokemon/id" "/api" = true := by decide
  simp [onRequest, h]

/-- The router on the path `/api/types`. -/
theorem onRequest_types (rt : Runtime) (assets : HtmlResponses.Assets) (pokedex : Pokedex)
    (method : String) (query accept : Option String) :
    onRequest rt assets pokedex ⟨method, "/api/types", query, accept⟩ =
      listTypes pokedex ⟨method, "/api/types", query, accept⟩ := by
  have h : startsWith "/api/types" "/api" = true := by decide
  simp [onRequest, h]

/-- C2: on the path `/api/pokemon` the router never calls `getById`, whatever the method and
the query string. At `GET /api/pokemon?id=1` over the example catalog, where `getById("1")`
finds Bulbasaur, the query has an `id` parameter and the raw query includes `id=`, yet the
router calls `getAll` and writes the whole list; the lookup branch, run on the same request,
would have written the single entry. -/
theorem pokemon_id_query_runs_list_branch :
    (∀ (rt : Runtime) (assets : HtmlResponses.Assets) (pokedex : Pokedex) (method : String)
        (query accept : Option String) (id : Option QVal),
      Event.getById id ∉
        (onRequest rt assets pokedex ⟨method, "/api/pokemon", query, accept⟩).events) ∧
    Example.querystringParse (some "id=1") = [("id", .str "1")] ∧
    queryIncludesId (some "id=1") = true ∧
    (onRequest Example.runtime Example.assets Example.pokedex
        ⟨"GET", "/api/pokemon", some "id=1", none⟩).events =
      [ .getAll ⟨none, none, .fin false 50 1, .fin false 0 1⟩,
        .writeHead 200 "application/json" 87,
        .write (.text (stringify (.arr (Example.catalog.map Entry.toJson)))),
        .end_ ] ∧
    (lookupPokemon Example.runtime Example.pokedex
        ⟨"GET", "/api/pokemon", some "id=1", none⟩).events =
      [ .getById (some (.str "1")),
        .writeHead 200 "application/json" 42,
        .write (.text "\x7b\"id\":1,\"name\":\"Bulbasaur\",\"type\":\"Grass\"\x7d"),
        .end_ ] := by
  refine ⟨?_, by decide, by decide, by decide, by decide⟩
  intro rt assets pokedex method query accept id
  rw [onRequest_pokemon]
  by_cases hhead : method = "HEAD"
  · simp only [hhead, if_true, listPokemonHead]
    cases hq : parsePokemonQuery (rt.querystringParse query) with
    | error err => simp [headOnly]
    | ok opts => cases hg : pokedex.getAll opts <;> simp [hg, headOnly]
  · by_cases hget : method = "GET"
    · simp only [hget, if_true, listPokemonGet]
      cases hq : parsePokemonQuery (rt.querystringParse query) with
      | error err => simp [sendJson]
      | ok opts => cases hg : pokedex.getAll opts <;> simp [hg, sendJson]
    · simp [hhead, hget, sendJson]

/-- C3: on each recognised API path, for every query string and provider, the HEAD run has the
same status, `Content-Type` and `Content-Length` as the GET run, writes no body, and is the
GET run with its `write` removed (same provider calls, same escaping exception); a query
that fails validation gives 400 on HEAD too. -/
theorem head_mirrors_get (rt : Runtime) (assets : HtmlResponses.Assets) (pokedex : Pokedex)
    (pathname : String) (query accept : Option String)
    (hpath : pathname = "/api/pokemon" ∨ pathname = "/api/pokemon/id" ∨
      pathname = "/api/types") :
    (onRequest rt assets pokedex ⟨"HEAD", pathname, query, accept⟩).head =
      (onRequest rt assets pokedex ⟨"GET", pathname, query, accept⟩).head ∧
    (onRequest rt assets pokedex ⟨"HEAD", pathname, query, accept⟩).written = [] ∧
    (onRequest rt assets pokedex ⟨"HEAD", pathname, query, accept⟩).events =
      (onRequest rt assets pokedex ⟨"GET", pathname, query, accept⟩).events.filter
        (fun e => !e.isWrite) ∧
    (onRequest rt assets pokedex ⟨"HEAD", pathname, query, accept⟩).thrown =
      (onRequest rt assets pokedex ⟨"GET", pathname, query, accept⟩).thrown ∧
    (∀ err, pathname = "/api/pokemon" →
      parsePokemonQuery (rt.querystringParse query) = .error err →
      (onRequest rt assets pokedex ⟨"HEAD", pathname, query, accept⟩).head =
        some (400, "application/json",
          byteLength (stringify (errorBody err.message "badRequest")))) := by
  rcases hpath with h | h | h <;> subst h
  · simp only [onRequest_pokemon, listPokemonHead, listPokemonGet]
    cases hq : parsePokemonQuery (rt.querystringParse query) with
    | error err => simp [Run.head, Run.written, sendJson, headOnly, Event.isWrite]
    | ok opts =>
      cases hg : pokedex.getAll opts <;>
        simp [hg, Run.head, Run.written, sendJson, headOnly, Event.isWrite]
  · simp only [onRequest_pokemon_id, lookupPokemon]
    cases hg : pokedex.getById ((rt.querystringParse query).get "id") with
    | error err => simp [hg, Run.head, Run.written, Event.isWrite]
    | ok found =>
      cases found <;> simp [hg, Run.head, Run.written, sendJson, headOnly, Event.isWrite]
  · simp only [onRequest_types, listTypes]
    cases hg : pokedex.getTypes <;>
      simp [hg, Run.head, Run.written, sendJson, headOnly, Event.isWrite]

/-- C3 at `/api/pokemon?limit=-1` over the example catalog: HEAD and GET both answer 400 with
`Content-Length` 55, and HEAD writes nothing. -/
theorem head_mirrors_get_witness :
    (onRequest Example.runtime Example.assets Example.pokedex
        ⟨"HEAD", "/api/pokemon", some "limit=-1", none⟩).head =
      (onRequest Example.runtime Example.assets Example.pokedex
        ⟨"GET", "/api/pokemon", some "limit=-1", none⟩).head ∧
    (onRequest Example.runtime Example.assets Example.pokedex
        ⟨"HEAD", "/api/pokemon", some "limit=-1", none⟩).written = [] ∧
    (onRequest Example.runtime Example.assets Example.pokedex
        ⟨"HEAD", "/api/pokemon", some "limit=-1", none⟩).head =
      some (400, "application/json", 55) :=
  have h := head_mirrors_get Example.runtime Example.assets Example.pokedex "/api/pokemon"
    (some "limit=-1") none (Or.inl rfl)
  ⟨h.1, h.2.1, (h.2.2.2.2 ⟨"Invalid limit parameter"⟩ rfl (by decide)).trans (by decide)⟩

/-- C4: when the query fails validation, GET `/api/pokemon` answers 400 with the body
`{message: <the error message>, id: "badRequest"}` and HEAD answers 400 announcing the length
of that body; the run holds no provider call and is the same for every provider. -/
theorem invalid_query_bad_request (rt : Runtime) (assets : HtmlResponses.Assets)
    (pokedex : Pokedex) (query accept : Option String) (err : JSError)
    (hinvalid : parsePokemonQuery (rt.querystringParse query) = .error err) :
    onRequest rt assets pokedex ⟨"GET", "/api/pokemon", query, accept⟩ =
      { events :=
          [ .writeHead 400 "application/json"
              (byteLength (stringify (errorBody err.message "badRequest"))),
            .write (.text (stringify (errorBody err.message "badRequest"))),
            .end_ ] } ∧
    onRequest rt assets pokedex ⟨"HEAD", "/api/pokemon", query, accept⟩ =
      { events :=
          [ .writeHead 400 "application/json"
              (byteLength (stringify (errorBody err.message "badRequest"))),
            .end_ ] } ∧
    (∀ e ∈ (onRequest rt assets pokedex ⟨"GET", "/api/pokemon", query, accept⟩).events ++
        (onRequest rt assets pokedex ⟨"HEAD", "/api/pokemon", query, accept⟩).events,
      e.isProviderCall = false) ∧
    (∀ other : Pokedex,
      onRequest rt assets other ⟨"GET", "/api/pokemon", query, accept⟩ =
        onRequest rt assets pokedex ⟨"GET", "/api/pokemon", query, accept⟩ ∧
      onRequest rt assets other ⟨"HEAD", "/api/pokemon", query, accept⟩ =
        onRequest rt assets pokedex ⟨"HEAD", "/api/pokemon", query, accept⟩) := by
  simp [onRequest_pokemon, listPokemonHead, listPokemonGet, hinvalid, sendJson, headOnly,
    Event.isProviderCall]

/-- C4 at `GET /api/pokemon?limit=abc`: status 400, `Content-Length` 55 and the body naming the
limit parameter. -/
theorem invalid_query_bad_request_witness :
    onRequest Example.runtime Example.assets Example.pokedex
        ⟨"GET", "/api/pokemon", some "limit=abc", none⟩ =
      { events :=
          [ .writeHead 400 "application/json" 55,
            .write (.text "\x7b\"message\":\"Invalid limit parameter\",\"id\":\"badRequest\"\x7d"),
            .end_ ] } :=
  (invalid_query_bad_request Example.runtime Example.assets Example.pokedex (some "limit=abc")
    none ⟨"Invalid limit parameter"⟩ (by decide)).1.trans (by decide)

/-- C5: on each recognised API path, a method other than GET and HEAD gets 405 with the body
`{"message":"Method Not Allowed","id":"methodNotAllowed"}`, whatever the query string, and the
run holds no provider call. -/
theorem other_method_not_allowed (rt : Runtime) (assets : HtmlResponses.Assets)
    (pokedex : Pokedex) (method pathname : String) (query accept : Option String)
    (hget : method ≠ "GET") (hhead : method ≠ "HEAD")
    (hpath : pathname = "/api/pokemon" ∨ pathname = "/api/pokemon/id" ∨
      pathname = "/api/types") :
    onRequest rt assets pokedex ⟨method, pathname, query, accept⟩ =
      { events :=
          [ .writeHead 405 "application/json" 56,
            .write
              (.text "\x7b\"message\":\"Method Not Allowed\",\"id\":\"methodNotAllowed\"\x7d"),
            .end_ ] } ∧
    (∀ e ∈ (onRequest rt assets pokedex ⟨method, pathname, query, accept⟩).events,
      e.isProviderCall = false) := by
  have hbody : sendJson 405 (errorBody "Method Not Allowed" "methodNotAllowed") =
      [ .writeHead 405 "application/json" 56,
        .write (.text "\x7b\"message\":\"Method Not Allowed\",\"id\":\"methodNotAllowed\"\x7d"),
        .end_ ] := by decide
  rcases hpath with h | h | h <;> subst h
  · simp [onRequest_pokemon, hget, hhead, hbody, Event.isProviderCall]
  · simp [onRequest_pokemon_id, lookupPokemon, hget, hhead, hbody, Event.isProviderCall]
  · simp [onRequest_types, listTypes, hget, hhead, hbody, Event.isProviderCall]

/-- C5 at `POST /api/pokemon?limit=-1`: 405 although the query is invalid. -/
theorem other_method_not_allowed_witness :
    (onRequest Example.runtime Example.assets Example.pokedex
        ⟨"POST", "/api/pokemon", some "limit=-1", none⟩).head =
      some (405, "application/json", 56) :=
  congrArg Run.head
    (other_method_not_allowed Example.runtime Example.assets Example.pokedex "POST"
      "/api/pokemon" (some "limit=-1") none (by decide) (by decide) (Or.inl rfl)).1

/-- C6, as stated, fails at `GET /apix`: the path is not under `/api/` and matches no route,
and the body is the API one. -/
theorem apix_gets_api_not_found :
    startsWith "/apix" "/api/" = false ∧
    onRequest Example.runtime Example.assets Example.pokedex ⟨"GET", "/apix", none, none⟩ =
      { events :=
          [ .writeHead 404 "application/json" 52,
            .write (.text "\x7b\"message\":\"API endpoint not found\",\"id\":\"notFound\"\x7d"),
            .end_ ] } := by
  decide

/-- C6, amended: a request whose path matches no route gets 404, for every method; the body is
`{"message":"API endpoint not found","id":"notFound"}` exactly when the path starts with the
four characters `/api`, and `{"message":"Resource not found","id":"notFound"}` otherwise. -/
theorem unmatched_path_not_found (rt : Runtime) (assets : HtmlResponses.Assets)
    (pokedex : Pokedex) (request : Request)
    (hroute : request.pathname ∉
      ["/", "/style.css", "/docs", "/api/pokemon", "/api/pokemon/id", "/api/types"]) :
    (startsWith request.pathname "/api" = true →
      onRequest rt assets pokedex request =
        { events :=
            [ .writeHead 404 "application/json" 52,
              .write
                (.text "\x7b\"message\":\"API endpoint not found\",\"id\":\"notFound\"\x7d"),
              .end_ ] }) ∧
    (startsWith request.pathname "/api" = false →
      onRequest rt assets pokedex request =
        { events :=
            [ .writeHead 404 "application/json" 48,
              .write (.text "\x7b\"message\":\"Resource not found\",\"id\":\"notFound\"\x7d"),
              .end_ ] }) := by
  have hapi : sendJson 404 (errorBody "API endpoint not found" "notFound") =
      [ .writeHead 404 "application/json" 52,
        .write (.text "\x7b\"message\":\"API endpoint not found\",\"id\":\"notFound\"\x7d"),
        .end_ ] := by decide
  have hlen : byteLength (stringify (errorBody "Resource not found" "notFound")) = 48 := by
    decide
  have hres : stringify (errorBody "Resource not found" "notFound") =
      "\x7b\"message\":\"Resource not found\",\"id\":\"notFound\"\x7d" := by decide
  simp only [List.mem_cons, List.mem_singleton, List.not_mem_nil, or_false, not_or] at hroute
  obtain ⟨h1, h2, h3, h4, h5, h6⟩ := hroute
  constructor
  · intro hstart
    simp [onRequest, h1, h2, h3, h4, h5, h6, hstart, hapi]
  · intro hstart
    simp only [onRequest, h1, h2, h3, hstart, hlen, ↓reduceIte, Bool.false_eq_true]
    rw [hres]

/-- C6 (amended) at `DELETE /api` and at `GET /unknown/path`. -/
theorem unmatched_path_not_found_witness :
    (onRequest Example.runtime Example.assets Example.pokedex
        ⟨"DELETE", "/api", none, none⟩).written =
      [.text "\x7b\"message\":\"API endpoint not found\",\"id\":\"notFound\"\x7d"] ∧
    (onRequest Example.runtime Example.assets Example.pokedex
        ⟨"GET", "/unknown/path", none, none⟩).written =
      [.text "\x7b\"message\":\"Resource not found\",\"id\":\"notFound\"\x7d"] :=
  ⟨congrArg Run.written
      ((unmatched_path_not_found Example.runtime Example.assets Example.pokedex
        ⟨"DELETE", "/api", none, none⟩ (by decide)).1 (by decide)),
    congrArg Run.written
      ((unmatched_path_not_found Example.runtime Example.assets Example.pokedex
        ⟨"GET", "/unknown/path", none, none⟩ (by decide)).2 (by decide))⟩

/-! ## The parsed options -/

/-- A Number that is `>= 0` is neither NaN nor negative. -/
theorem geZero_valid (x : JSNumber) (h : x.geZero = true) :
    x.isNaN = false ∧ x.ltZero = false := by
  cases x with
  | nan => simp [JSNumber.geZero] at h
  | inf neg => cases neg <;> simp_all [JSNumber.geZero, JSNumber.isNaN, JSNumber.ltZero]
  | fin neg num den =>
    cases neg <;> simp_all [JSNumber.geZero, JSNumber.isNaN, JSNumber.ltZero]

/-- A Number that is neither NaN nor negative is `>= 0`. -/
theorem valid_geZero (x : JSNumber) (hnan : x.isNaN = false) (hneg : x.ltZero = false) :
    x.geZero = true := by
  cases x with
  | nan => simp [JSNumber.isNaN] at hnan
  | inf neg => cases neg <;> simp_all [JSNumber.geZero, JSNumber.ltZero]
  | fin neg num den => cases neg <;> simp_all [JSNumber.geZero, JSNumber.ltZero]

/-- C7, as stated, fails at `?limit=`: the limit parameter is present, its value is the empty
string, whose numeric parse is `0`, and the record returned has limit `50`. -/
theorem empty_limit_gives_50 :
    Example.querystringParse (some "limit=") = [("limit", .str "")] ∧
    Query.get [("limit", .str "")] "limit" = some (.str "") ∧
    toNumber (some (.str "")) = .fin false 0 1 ∧
    parsePokemonQuery [("limit", .str "")] =
      .ok ⟨none, none, .fin false 50 1, .fin false 0 1⟩ := by
  decide

/-- C7, amended: the limit is `50` when the limit parameter is absent or is the empty string,
and the numeric parse of its value whenever it is present with any other value; the offset is
`0` when the offset parameter is absent and the numeric parse of its value whenever it is
present. A record that is returned carries these two values. -/
theorem parsed_limit_offset (query : Query) :
    (query.get "limit" = none → (parsedQuery query).limit = .fin false 50 1) ∧
    (query.get "limit" = some (.str "") → (parsedQuery query).limit = .fin false 50 1) ∧
    (∀ v, query.get "limit" = some v → v ≠ .str "" →
      (parsedQuery query).limit = toNumber (some v)) ∧
    (query.get "offset" = none → (parsedQuery query).offset = .fin false 0 1) ∧
    (∀ v, query.get "offset" = some v → (parsedQuery query).offset = toNumber (some v)) ∧
    (∀ opts, parsePokemonQuery query = .ok opts →
      opts.limit = (parsedQuery query).limit ∧ opts.offset = (parsedQuery query).offset) := by
  have hzero : Number "" = .fin false 0 1 := by decide
  refine ⟨?_, ?_, ?_, ?_, ?_, ?_⟩
  · intro h
    simp [parsedQuery, h, truthy, JSNumber.ofNat]
  · intro h
    simp [parsedQuery, h, truthy, JSNumber.ofNat]
  · intro v h hv
    cases v with
    | str s =>
      have hs : s ≠ "" := fun hs => hv (by rw [hs])
      simp [parsedQuery, h, truthy, hs]
    | arr ss => simp [parsedQuery, h, truthy]
  · intro h
    simp [parsedQuery, h, truthy, JSNumber.ofNat]
  · intro v h
    cases v with
    | str s =>
      by_cases hs : s = ""
      · subst hs
        simp [parsedQuery, h, truthy, toNumber, hzero, JSNumber.ofNat]
      · simp [parsedQuery, h, truthy, hs]
    | arr ss => simp [parsedQuery, h, truthy]
  · intro opts h
    rw [((parsePokemonQuery_ok_iff query opts).mp h).1]
    exact ⟨rfl, rfl⟩

/-- C7 (amended) at `?limit=7&offset=`: limit `7`, offset `0`. -/
theorem parsed_limit_offset_witness :
    (parsedQuery [("limit", .str "7"), ("offset", .str "")]).limit = .fin false 7 1 ∧
    (parsedQuery [("limit", .str "7"), ("offset", .str "")]).offset = .fin false 0 1 ∧
    (parsedQuery []).limit = .fin false 50 1 :=
  ⟨((parsed_limit_offset [("limit", .str "7"), ("offset", .str "")]).2.2.1 (.str "7")
      (by decide) (by decide)).trans (by decide),
    ((parsed_limit_offset [("limit", .str "7"), ("offset", .str "")]).2.2.2.2.1 (.str "")
      (by decide)).trans (by decide),
    (parsed_limit_offset []).1 (by decide)⟩

/-- C8, as stated, fails at `?type=`: the query is accepted, its type parameter is present
(the empty string), and the returned type is `undefined`. -/
theorem empty_type_gives_undefined :
    Example.querystringParse (some "type=") = [("type", .str "")] ∧
    Query.get [("type", .str "")] "type" = some (.str "") ∧
    parsePokemonQuery [("type", .str "")] =
      .ok ⟨none, none, .fin false 50 1, .fin false 0 1⟩ := by
  decide

/-- C8, amended: for every accepted query the returned type is the query's type parameter
unmodified whenever that parameter is present and not the empty string, and is `undefined`
exactly when the parameter is absent or is the empty string; likewise for name. -/
theorem parsed_type_name (query : Query) (opts : Options)
    (hok : parsePokemonQuery query = .ok opts) :
    (∀ v, query.get "type" = some v → v ≠ .str "" → opts.type = some v) ∧
    (opts.type = none ↔ (query.get "type" = none ∨ query.get "type" = some (.str ""))) ∧
    (∀ v, query.get "name" = some v → v ≠ .str "" → opts.name = some v) ∧
    (opts.name = none ↔ (query.get "name" = none ∨ query.get "name" = some (.str ""))) := by
  have key : ∀ x : Option QVal,
      (∀ v, x = some v → v ≠ .str "" → (if truthy x = true then x else none) = some v) ∧
      ((if truthy x = true then x else none) = none ↔ (x = none ∨ x = some (.str ""))) := by
    intro x
    cases x with
    | none => simp [truthy]
    | some v =>
      cases v with
      | str s =>
        by_cases hs : s = ""
        · subst hs
          simp [truthy]
        · simp [truthy, hs]
      | arr ss => simp [truthy]
  rw [((parsePokemonQuery_ok_iff query opts).mp hok).1]
  exact ⟨(key (query.get "type")).1, (key (query.get "type")).2,
    (key (query.get "name")).1, (key (query.get "name")).2⟩

/-- C8 (amended) at `?type=Fire&name=`: type `"Fire"`, name `undefined`. -/
theorem parsed_type_name_witness :
    (parsedQuery [("type", .str "Fire"), ("name", .str "")]).type = some (.str "Fire") ∧
    (parsedQuery [("type", .str "Fire"), ("name", .str "")]).name = none :=
  have h := parsed_type_name [("type", .str "Fire"), ("name", .str "")]
    (parsedQuery [("type", .str "Fire"), ("name", .str "")]) (by decide)
  ⟨h.1 (.str "Fire") (by decide) (by decide), h.2.2.2.2 (Or.inr (by decide))⟩

/-- C9, as stated, fails at `?limit=1.5`: the query is accepted and the returned limit, `3/2`,
is not an integer. -/
theorem fractional_limit_accepted :
    Example.querystringParse (some "limit=1.5") = [("limit", .str "1.5")] ∧
    parsePokemonQuery [("limit", .str "1.5")] =
      .ok ⟨none, none, .fin false 3 2, .fin false 0 1⟩ ∧
    (JSNumber.fin false 3 2).isInteger = false := by
  decide

/-- C9, amended: every options record returned by `parsePokemonQuery` has a limit and an offset
that are Numbers other than NaN and `>= 0`; neither need be an integer. -/
theorem parsed_numbers_nonneg (query : Query) (opts : Options)
    (hok : parsePokemonQuery query = .ok opts) :
    opts.limit.isNaN = false ∧ opts.limit.geZero = true ∧
    opts.offset.isNaN = false ∧ opts.offset.geZero = true := by
  obtain ⟨rfl, h1, h2, h3, h4⟩ := (parsePokemonQuery_ok_iff query opts).mp hok
  exact ⟨h1, valid_geZero _ h1 h2, h3, valid_geZero _ h3 h4⟩

/-- C9 (amended) at `?limit=1.5&offset=2`. -/
theorem parsed_numbers_nonneg_witness :
    (JSNumber.fin false 3 2).geZero = true ∧ (JSNumber.fin false 2 1).geZero = true :=
  have h := parsed_numbers_nonneg [("limit", .str "1.5"), ("offset", .str "2")]
    ⟨none, none, .fin false 3 2, .fin false 2 1⟩ (by decide)
  ⟨h.2.1, h.2.2.2⟩

/-! ## The list endpoint -/

/-- Keeping at most `L` entries leaves a list whose length is `<= L`, for every `L >= 0`. -/
theorem atMost_length_le (limit : JSNumber) (xs : List Entry) (h : limit.geZero = true) :
    Spec.lengthLe (Spec.atMost (Spec.count limit) xs).length limit = true := by
  cases limit with
  | nan => simp [JSNumber.geZero] at h
  | inf neg =>
    cases neg
    · simp [Spec.lengthLe]
    · simp [JSNumber.geZero] at h
  | fin neg num den =>
    cases neg
    · simp only [Spec.count, Spec.atMost, Spec.lengthLe, List.length_take, decide_eq_true_eq]
      calc min (num / den) xs.length * den ≤ num / den * den :=
            Nat.mul_le_mul_right den (Nat.min_le_left _ _)
        _ ≤ num := Nat.div_mul_le_self num den
    · simp [JSNumber.geZero] at h
      simp [Spec.count, Spec.atMost, Spec.lengthLe, h]

/-- C10: when the parsed limit `L` and offset `O` are both `>= 0`, validation passes with the
options `{type, name, limit: L, offset: O}`, and if `getAll` returns for them, GET
`/api/pokemon` calls it once, answers 200 and writes exactly the serialisation of what it
returned. With a provider whose `getAll` slices the filtered set from `O` and keeps at most
`L` entries, that body is a JSON array of `xs` with `xs.length <= L`. -/
theorem get_pokemon_list (rt : Runtime) (assets : HtmlResponses.Assets) (pokedex : Pokedex)
    (query accept : Option String)
    (hlimit : (parsedQuery (rt.querystringParse query)).limit.geZero = true)
    (hoffset : (parsedQuery (rt.querystringParse query)).offset.geZero = true) :
    parsePokemonQuery (rt.querystringParse query) =
      .ok (parsedQuery (rt.querystringParse query)) ∧
    (∀ results, pokedex.getAll (parsedQuery (rt.querystringParse query)) = .ok results →
      onRequest rt assets pokedex ⟨"GET", "/api/pokemon", query, accept⟩ =
        { events :=
            [ .getAll (parsedQuery (rt.querystringParse query)),
              .writeHead 200 "application/json"
                (byteLength (stringify (.arr (results.map Entry.toJson)))),
              .write (.text (stringify (.arr (results.map Entry.toJson)))),
              .end_ ] }) ∧
    (∀ (catalog : List Entry) (keep : Options → Entry → Bool),
      pokedex.getAll = (fun opts => .ok (Spec.getAll catalog keep opts)) →
      ∃ xs : List Entry,
        xs = Spec.getAll catalog keep (parsedQuery (rt.querystringParse query)) ∧
        (onRequest rt assets pokedex ⟨"GET", "/api/pokemon", query, accept⟩).head =
          some (200, "application/json",
            byteLength (stringify (.arr (xs.map Entry.toJson)))) ∧
        (onRequest rt assets pokedex ⟨"GET", "/api/pokemon", query, accept⟩).written =
          [.text (stringify (.arr (xs.map Entry.toJson)))] ∧
        Spec.lengthLe xs.length (parsedQuery (rt.querystringParse query)).limit = true) := by
  have hok : parsePokemonQuery (rt.querystringParse query) =
      .ok (parsedQuery (rt.querystringParse query)) := by
    rw [parsePokemonQuery_ok_iff]
    exact ⟨rfl, (geZero_valid _ hlimit).1, (geZero_valid _ hlimit).2,
      (geZero_valid _ hoffset).1, (geZero_valid _ hoffset).2⟩
  refine ⟨hok, ?_, ?_⟩
  · intro results hres
    simp [onRequest_pokemon, listPokemonGet, hok, hres, sendJson]
  · intro catalog keep hprov
    refine ⟨_, rfl, ?_, ?_, ?_⟩
    · simp [onRequest_pokemon, listPokemonGet, hok, hprov, sendJson, Run.head]
    · simp [onRequest_pokemon, listPokemonGet, hok, hprov, sendJson, Run.written]
    · exact atMost_length_le _ _ hlimit

/-- C10 at `GET /api/pokemon?limit=1&offset=1` over the example catalog: the second entry
alone is written, and the array written has a length `<= 1`. -/
theorem get_pokemon_list_witness :
    (onRequest Example.runtime Example.assets Example.pokedex
        ⟨"GET", "/api/pokemon", some "limit=1&offset=1", none⟩).written =
      [.text "[\x7b\"id\":4,\"name\":\"Charmander\",\"type\":\"Fire\"\x7d]"] ∧
    (∃ xs : List Entry,
      (onRequest Example.runtime Example.assets Example.pokedex
          ⟨"GET", "/api/pokemon", some "limit=1&offset=1", none⟩).written =
        [.text (stringify (.arr (xs.map Entry.toJson)))] ∧
      Spec.lengthLe xs.length (.fin false 1 1) = true) :=
  have h := get_pokemon_list Example.runtime Example.assets Example.pokedex
    (some "limit=1&offset=1") none (by decide) (by decide)
  ⟨(congrArg Run.written
      (h.2.1
        (Spec.getAll Example.catalog Example.keep
          (parsedQuery (Example.querystringParse (some "limit=1&offset=1")))) rfl)).trans
      (by decide),
    (h.2.2 Example.catalog Example.keep rfl).imp fun _ hx => ⟨hx.2.2.1, hx.2.2.2⟩⟩

end Server

/-! ## The shape of every run -/

namespace Server

/-- Every run of the router has one of four shapes: a static asset; provider calls followed by
a JSON head, the body and `end`; on HEAD, provider calls followed by a JSON head and `end`,
where GET would add the body; or a single provider call whose exception escapes. -/
theorem onRequest_shape (rt : Runtime) (assets : HtmlResponses.Assets) (pokedex : Pokedex)
    (request : Request) :
    (request.pathname ∈ ["/", "/style.css", "/docs"] ∧
      ∃ (contentType : String) (buffer : Buffer),
        onRequest rt assets pokedex request =
          { events :=
              [.writeHead 200 contentType buffer.length, .write (.bytes buffer), .end_] }) ∨
    (request.pathname ∉ ["/", "/style.css", "/docs"] ∧
      ∃ (calls : List Event) (status : Nat) (body : Json),
        (∀ e ∈ calls, e.isProviderCall = true) ∧ status ∈ [200, 400, 404, 405] ∧
        onRequest rt assets pokedex request =
          { events := calls ++
              [ .writeHead status "application/json" (byteLength (stringify body)),
                .write (.text (stringify body)), .end_ ] }) ∨
    (request.pathname ∉ ["/", "/style.css", "/docs"] ∧
      ∃ (calls : List Event) (status : Nat) (body : Json),
        request.method = "HEAD" ∧
        (∀ e ∈ calls, e.isProviderCall = true) ∧ status ∈ [200, 400, 404, 405] ∧
        onRequest rt assets pokedex request =
          { events := calls ++
              [.writeHead status "application/json" (byteLength (stringify body)), .end_] } ∧
        onRequest rt assets pokedex { request with method := "GET" } =
          { events := calls ++
              [ .writeHead status "application/json" (byteLength (stringify body)),
                .write (.text (stringify body)), .end_ ] }) ∨
    (∃ (call : Event) (err : JSError),
        call.isProviderCall = true ∧
        ((∃ id, pokedex.getById id = .error err) ∨ pokedex.getTypes = .error err) ∧
        onRequest rt assets pokedex request = { events := [call], thrown := some err }) := by
  rcases request with ⟨method, pathname, query, accept⟩
  by_cases h1 : pathname = "/"
  · subst h1
    exact Or.inl ⟨by simp, "text/html", assets.indexFile,
      by simp [onRequest, HtmlResponses.getIndex]⟩
  by_cases h2 : pathname = "/style.css"
  · subst h2
    exact Or.inl ⟨by simp, "text/css", assets.cssFile,
      by simp [onRequest, HtmlResponses.getCSS]⟩
  by_cases h3 : pathname = "/docs"
  · subst h3
    exact Or.inl ⟨by simp, "text/html", assets.docsFile,
      by simp [onRequest, HtmlResponses.getDocs]⟩
  have hstatic : pathname ∉ ["/", "/style.css", "/docs"] := by simp [h1, h2, h3]
  by_cases h4 : pathname = "/api/pokemon"
  · subst h4
    by_cases hhead : method = "HEAD"
    · subst hhead
      refine Or.inr (Or.inr (Or.inl ⟨hstatic, ?_⟩))
      simp only [onRequest_pokemon, listPokemonHead, listPokemonGet]
      cases hq : parsePokemonQuery (rt.querystringParse query) with
      | error err =>
        exact ⟨[], 400, errorBody err.message "badRequest", by simp, by simp, by simp,
          by simp [headOnly], by simp [sendJson]⟩
      | ok opts =>
        cases hg : pokedex.getAll opts with
        | error err =>
          exact ⟨[.getAll opts], 400, errorBody err.message "badRequest", by simp,
            by simp [Event.isProviderCall], by simp, by simp [hg, headOnly],
            by simp [hg, sendJson]⟩
        | ok results =>
          exact ⟨[.getAll opts], 200, .arr (results.map Entry.toJson), by simp,
            by simp [Event.isProviderCall], by simp, by simp [hg, headOnly],
            by simp [hg, sendJson]⟩
    · refine Or.inr (Or.inl ⟨hstatic, ?_⟩)
      by_cases hget : method = "GET"
      · subst hget
        simp only [onRequest_pokemon, listPokemonGet]
        cases hq : parsePokemonQuery (rt.querystringParse query) with
        | error err =>
          exact ⟨[], 400, errorBody err.message "badRequest", by simp, by simp,
            by simp [sendJson]⟩
        | ok opts =>
          cases hg : pokedex.getAll opts with
          | error err =>
            exact ⟨[.getAll opts], 400, errorBody err.message "badRequest",
              by simp [Event.isProviderCall], by simp, by simp [hg, sendJson]⟩
          | ok results =>
            exact ⟨[.getAll opts], 200, .arr (results.map Entry.toJson),
              by simp [Event.isProviderCall], by simp, by simp [hg, sendJson]⟩
      · exact ⟨[], 405, errorBody "Method Not Allowed" "methodNotAllowed", by simp, by simp,
          by simp [onRequest_pokemon, hhead, hget, sendJson]⟩
  by_cases h5 : pathname = "/api/pokemon/id"
  · subst h5
    by_cases hhead : method = "HEAD"
    · subst hhead
      simp only [onRequest_pokemon_id, lookupPokemon]
      cases hg : pokedex.getById ((rt.querystringParse query).get "id") with
      | error err =>
        exact Or.inr (Or.inr (Or.inr ⟨.getById ((rt.querystringParse query).get "id"), err,
          rfl, Or.inl ⟨_, hg⟩, by simp⟩))
      | ok found =>
        cases found with
        | none =>
          exact Or.inr (Or.inr (Or.inl ⟨hstatic,
            [.getById ((rt.querystringParse query).get "id")], 404,
            errorBody "Not found" "notFound", by simp, by simp [Event.isProviderCall], by simp,
            by simp [headOnly], by simp [hg, sendJson]⟩))
        | some entry =>
          exact Or.inr (Or.inr (Or.inl ⟨hstatic,
            [.getById ((rt.querystringParse query).get "id")], 200, entry.toJson, by simp,
            by simp [Event.isProviderCall], by simp, by simp [headOnly],
            by simp [hg, sendJson]⟩))
    · by_cases hget : method = "GET"
      · subst hget
        simp only [onRequest_pokemon_id, lookupPokemon]
        cases hg : pokedex.getById ((rt.querystringParse query).get "id") with
        | error err =>
          exact Or.inr (Or.inr (Or.inr ⟨.getById ((rt.querystringParse query).get "id"), err,
            rfl, Or.inl ⟨_, hg⟩, by simp⟩))
        | ok found =>
          cases found with
          | none =>
            exact Or.inr (Or.inl ⟨hstatic,
              [.getById ((rt.querystringParse query).get "id")], 404,
              errorBody "Not found" "notFound", by simp [Event.isProviderCall], by simp,
              by simp [sendJson]⟩)
          | some entry =>
            exact Or.inr (Or.inl ⟨hstatic,
              [.getById ((rt.querystringParse query).get "id")], 200, entry.toJson,
              by simp [Event.isProviderCall], by simp, by simp [sendJson]⟩)
      · exact Or.inr (Or.inl ⟨hstatic, [], 405,
          errorBody "Method Not Allowed" "methodNotAllowed", by simp, by simp,
          by simp [onRequest_pokemon_id, lookupPokemon, hhead, hget, sendJson]⟩)
  by_cases h6 : pathname = "/api/types"
  · subst h6
    by_cases hhead : method = "HEAD"
    · subst hhead
      simp only [onRequest_types, listTypes]
      cases hg : pokedex.getTypes with
      | error err =>
        exact Or.inr (Or.inr (Or.inr ⟨.getTypes, err, rfl, Or.inr rfl, by simp⟩))
      | ok types =>
        exact Or.inr (Or.inr (Or.inl ⟨hstatic, [.getTypes], 200, typesBody types, by simp,
          by simp [Event.isProviderCall], by simp, by simp [headOnly],
          by simp [hg, sendJson]⟩))
    · by_cases hget : method = "GET"
      · subst hget
        simp only [onRequest_types, listTypes]
        cases hg : pokedex.getTypes with
        | error err =>
          exact Or.inr (Or.inr (Or.inr ⟨.getTypes, err, rfl, Or.inr rfl, by simp⟩))
        | ok types =>
          exact Or.inr (Or.inl ⟨hstatic, [.getTypes], 200, typesBody types,
            by simp [Event.isProviderCall], by simp, by simp [sendJson]⟩)
      · exact Or.inr (Or.inl ⟨hstatic, [], 405,
          errorBody "Method Not Allowed" "methodNotAllowed", by simp, by simp,
          by simp [onRequest_types, listTypes, hhead, hget, sendJson]⟩)
  refine Or.inr (Or.inl ⟨hstatic, ?_⟩)
  by_cases hapi : startsWith pathname "/api" = true
  · exact ⟨[], 404, errorBody "API endpoint not found" "notFound", by simp, by simp,
      by simp [onRequest, h1, h2, h3, h4, h5, h6, hapi, sendJson]⟩
  · exact ⟨[], 404, errorBody "Resource not found" "notFound", by simp, by simp,
      by simp [onRequest, h1, h2, h3, hapi]⟩

/-! ## Lookup, HEAD bodies and headers -/

/-- C11: on GET `/api/pokemon/id` the router calls `getById` on the query's `id`; when an
entry is found it answers 200 and writes the serialisation of that entry, and when none is
found it answers 404 with `{"message":"Not found","id":"notFound"}`. -/
theorem get_pokemon_by_id (rt : Runtime) (assets : HtmlResponses.Assets) (pokedex : Pokedex)
    (query accept : Option String) :
    (∀ found : Entry,
      pokedex.getById ((rt.querystringParse query).get "id") = .ok (some found) →
      onRequest rt assets pokedex ⟨"GET", "/api/pokemon/id", query, accept⟩ =
        { events :=
            [ .getById ((rt.querystringParse query).get "id"),
              .writeHead 200 "application/json" (byteLength (stringify found.toJson)),
              .write (.text (stringify found.toJson)),
              .end_ ] }) ∧
    (pokedex.getById ((rt.querystringParse query).get "id") = .ok none →
      onRequest rt assets pokedex ⟨"GET", "/api/pokemon/id", query, accept⟩ =
        { events :=
            [ .getById ((rt.querystringParse query).get "id"),
              .writeHead 404 "application/json" 39,
              .write (.text "\x7b\"message\":\"Not found\",\"id\":\"notFound\"\x7d"),
              .end_ ] }) := by
  have hbody : sendJson 404 (errorBody "Not found" "notFound") =
      [ .writeHead 404 "application/json" 39,
        .write (.text "\x7b\"message\":\"Not found\",\"id\":\"notFound\"\x7d"),
        .end_ ] := by decide
  constructor
  · intro found hfound
    simp [onRequest_pokemon_id, lookupPokemon, hfound, sendJson]
  · intro hnone
    simp [onRequest_pokemon_id, lookupPokemon, hnone, hbody]

/-- C11 at `GET /api/pokemon/id?id=1` (found) and `?id=99` (not found) over the example
catalog. -/
theorem get_pokemon_by_id_witness :
    onRequest Example.runtime Example.assets Example.pokedex
        ⟨"GET", "/api/pokemon/id", some "id=1", none⟩ =
      { events :=
          [ .getById (some (.str "1")),
            .writeHead 200 "application/json" 42,
            .write (.text "\x7b\"id\":1,\"name\":\"Bulbasaur\",\"type\":\"Grass\"\x7d"),
            .end_ ] } ∧
    (onRequest Example.runtime Example.assets Example.pokedex
        ⟨"GET", "/api/pokemon/id", some "id=99", none⟩).head =
      some (404, "application/json", 39) :=
  ⟨((get_pokemon_by_id Example.runtime Example.assets Example.pokedex (some "id=1") none).1
      ⟨[("id", .num 1), ("name", .str "Bulbasaur"), ("type", .str "Grass")]⟩
      rfl).trans (by decide),
    congrArg Run.head
      ((get_pokemon_by_id Example.runtime Example.assets Example.pokedex (some "id=99")
        none).2 rfl)⟩

/-- C12: evaluation at `HEAD /api/unknown` and `HEAD /unknown/path`, for every runtime,
provider and query string: the router answers 404 and passes the body to `response.write`,
although the method is HEAD. -/
theorem head_not_found_writes_body :
    (∀ (rt : Runtime) (assets : HtmlResponses.Assets) (pokedex : Pokedex)
        (query accept : Option String),
      onRequest rt assets pokedex ⟨"HEAD", "/api/unknown", query, accept⟩ =
        { events :=
            [ .writeHead 404 "application/json" 52,
              .write
                (.text "\x7b\"message\":\"API endpoint not found\",\"id\":\"notFound\"\x7d"),
              .end_ ] }) ∧
    (∀ (rt : Runtime) (assets : HtmlResponses.Assets) (pokedex : Pokedex)
        (query accept : Option String),
      onRequest rt assets pokedex ⟨"HEAD", "/unknown/path", query, accept⟩ =
        { events :=
            [ .writeHead 404 "application/json" 48,
              .write (.text "\x7b\"message\":\"Resource not found\",\"id\":\"notFound\"\x7d"),
              .end_ ] }) ∧
    (onRequest Example.runtime Example.assets Example.pokedex
        ⟨"HEAD", "/api/unknown", none, none⟩).written =
      [.text "\x7b\"message\":\"API endpoint not found\",\"id\":\"notFound\"\x7d"] := by
  have hapi : sendJson 404 (errorBody "API endpoint not found" "notFound") =
      [ .writeHead 404 "application/json" 52,
        .write (.text "\x7b\"message\":\"API endpoint not found\",\"id\":\"notFound\"\x7d"),
        .end_ ] := by decide
  have hlen : byteLength (stringify (errorBody "Resource not found" "notFound")) = 48 := by
    decide
  have hres : stringify (errorBody "Resource not found" "notFound") =
      "\x7b\"message\":\"Resource not found\",\"id\":\"notFound\"\x7d" := by decide
  have hstart : startsWith "/api/unknown" "/api" = true := by decide
  have hstart2 : startsWith "/unknown/path" "/api" = false := by decide
  refine ⟨?_, ?_, by decide⟩
  · intro rt assets pokedex query accept
    simp [onRequest, hstart, hapi]
  · intro rt assets pokedex query accept
    simp only [onRequest, hstart2, hlen, ↓reduceIte, Bool.false_eq_true]
    simp [hres]

/-- Provider calls are neither `writeHead`, nor `write`, nor `end` calls. -/
theorem provider_calls_silent (calls : List Event)
    (h : ∀ e ∈ calls, e.isProviderCall = true) :
    (calls.filterMap fun e =>
      match e with
      | .writeHead s c l => some (s, c, l)
      | _ => none) = [] ∧
    (calls.filterMap fun e =>
      match e with
      | .write chunk => some chunk
      | _ => none) = [] ∧
    calls.count .end_ = 0 := by
  induction calls with
  | nil => simp
  | cons e rest ih =>
    have he := h e (List.mem_cons_self _ _)
    have hrest := ih fun x hx => h x (List.mem_cons_of_mem _ hx)
    cases e <;> simp_all [Event.isProviderCall]

/-- C13: off the three static routes, every `writeHead` of the router carries `Content-Type`
`application/json` and a `Content-Length` that is the UTF-8 byte length of a serialised body;
that body is the one the run writes, or, on a HEAD run that writes none, the one the GET run
of the same request writes. -/
theorem json_content_length (rt : Runtime) (assets : HtmlResponses.Assets) (pokedex : Pokedex)
    (request : Request) (status : Nat) (contentType : String) (contentLength : Nat)
    (hjson : request.pathname ∉ ["/", "/style.css", "/docs"])
    (hhead : (status, contentType, contentLength) ∈
      (onRequest rt assets pokedex request).heads) :
    contentType = "application/json" ∧
    ∃ body : Json,
      contentLength = (stringify body).utf8ByteSize ∧
      ((onRequest rt assets pokedex request).written = [.text (stringify body)] ∨
        (request.method = "HEAD" ∧
          (onRequest rt assets pokedex request).written = [] ∧
          (onRequest rt assets pokedex { request with method := "GET" }).written =
            [.text (stringify body)])) := by
  have hcalls := provider_calls_silent
  rcases onRequest_shape rt assets pokedex request with
    ⟨hstatic, _⟩ | ⟨_, calls, st, body, hc, _, hrun⟩ |
    ⟨_, calls, st, body, hm, hc, _, hrun, hget⟩ | ⟨call, err, hc, _, hrun⟩
  · exact absurd hstatic hjson
  · rw [hrun] at hhead ⊢
    simp only [Run.heads, Run.written, List.filterMap_append, (hcalls calls hc).1,
      (hcalls calls hc).2.1] at hhead ⊢
    simp at hhead
    obtain ⟨rfl, rfl, rfl⟩ := hhead
    exact ⟨rfl, body, rfl, Or.inl (by simp)⟩
  · rw [hrun] at hhead ⊢
    rw [hget]
    simp only [Run.heads, Run.written, List.filterMap_append, (hcalls calls hc).1,
      (hcalls calls hc).2.1] at hhead ⊢
    simp at hhead
    obtain ⟨rfl, rfl, rfl⟩ := hhead
    exact ⟨rfl, body, rfl, Or.inr ⟨hm, by simp, by simp⟩⟩
  · rw [hrun] at hhead
    cases call <;> simp [Run.heads, Event.isProviderCall] at hhead hc

/-- C13 at `GET /api/types` with the type name `Fée`: the body has 27 characters and 28 bytes,
and the `Content-Length` is 28. -/
theorem json_content_length_witness :
    (onRequest Example.runtime Example.assets Example.accentedPokedex
        ⟨"GET", "/api/types", none, none⟩).heads = [(200, "application/json", 28)] ∧
    (onRequest Example.runtime Example.assets Example.accentedPokedex
        ⟨"GET", "/api/types", none, none⟩).written =
      [.text "\x7b\"count\":1,\"types\":[\"Fée\"]\x7d"] ∧
    "\x7b\"count\":1,\"types\":[\"Fée\"]\x7d".length = 27 ∧
    ∃ body : Json,
      28 = (stringify body).utf8ByteSize ∧
      ((onRequest Example.runtime Example.assets Example.accentedPokedex
          ⟨"GET", "/api/types", none, none⟩).written = [.text (stringify body)] ∨
        ("GET" = "HEAD" ∧
          (onRequest Example.runtime Example.assets Example.accentedPokedex
            ⟨"GET", "/api/types", none, none⟩).written = [] ∧
          (onRequest Example.runtime Example.assets Example.accentedPokedex
            ⟨"GET", "/api/types", none, none⟩).written = [.text (stringify body)])) :=
  ⟨by decide, by decide, by decide,
    (json_content_length Example.runtime Example.assets Example.accentedPokedex
      ⟨"GET", "/api/types", none, none⟩ 200 "application/json" 28 (by decide) (by decide)).2⟩

/-- C14: when `getTypes` returns `types`, GET `/api/types` answers 200, for every query
string, with the body `{count, types}` where `types` is that sequence in the same order and
`count` is its length. -/
theorem get_types (rt : Runtime) (assets : HtmlResponses.Assets) (pokedex : Pokedex)
    (query accept : Option String) (types : List String)
    (htypes : pokedex.getTypes = .ok types) :
    onRequest rt assets pokedex ⟨"GET", "/api/types", query, accept⟩ =
      { events :=
          [ .getTypes,
            .writeHead 200 "application/json"
              (byteLength (stringify
                (.obj [("count", .num types.length), ("types", .arr (types.map Json.str))]))),
            .write (.text (stringify
              (.obj [("count", .num types.length), ("types", .arr (types.map Json.str))]))),
            .end_ ] } := by
  rw [onRequest_types]
  simp [listTypes, htypes, sendJson, typesBody]

/-- C14 at `GET /api/types?limit=abc` over the example provider. -/
theorem get_types_witness :
    onRequest Example.runtime Example.assets Example.pokedex
        ⟨"GET", "/api/types", some "limit=abc", none⟩ =
      { events :=
          [ .getTypes,
            .writeHead 200 "application/json" 36,
            .write (.text "\x7b\"count\":2,\"types\":[\"Grass\",\"Fire\"]\x7d"),
            .end_ ] } :=
  (get_types Example.runtime Example.assets Example.pokedex (some "limit=abc") none
    ["Grass", "Fire"] rfl).trans (by decide)

/-- C15: on `/`, `/style.css` and `/docs` the router answers 200, for every method and query
string, with `Content-Type` `text/html`, `text/css` and `text/html`, a `Content-Length` that
is the number of bytes of the loaded buffer, and that buffer as the body. -/
theorem static_routes (rt : Runtime) (assets : HtmlResponses.Assets) (pokedex : Pokedex)
    (method : String) (query accept : Option String) :
    onRequest rt assets pokedex ⟨method, "/", query, accept⟩ =
      { events :=
          [ .writeHead 200 "text/html" assets.indexFile.length,
            .write (.bytes assets.indexFile), .end_ ] } ∧
    onRequest rt assets pokedex ⟨method, "/style.css", query, accept⟩ =
      { events :=
          [ .writeHead 200 "text/css" assets.cssFile.length,
            .write (.bytes assets.cssFile), .end_ ] } ∧
    onRequest rt assets pokedex ⟨method, "/docs", query, accept⟩ =
      { events :=
          [ .writeHead 200 "text/html" assets.docsFile.length,
            .write (.bytes assets.docsFile), .end_ ] } := by
  refine ⟨?_, ?_, ?_⟩
  · simp [onRequest, HtmlResponses.getIndex]
  · simp [onRequest, HtmlResponses.getCSS]
  · simp [onRequest, HtmlResponses.getDocs]

/-- C16: replacing the `Accept` header of a request by any other value, or removing it, leaves
the run unchanged; and every `writeHead` on a path that starts with `/api` has `Content-Type`
`application/json`. -/
theorem accept_has_no_effect (rt : Runtime) (assets : HtmlResponses.Assets)
    (pokedex : Pokedex) (request : Request) (accept : Option String) :
    onRequest rt assets pokedex { request with accept := accept } =
      onRequest rt assets pokedex request ∧
    (startsWith request.pathname "/api" = true →
      ∀ head ∈ (onRequest rt assets pokedex request).heads, head.2.1 = "application/json") := by
  constructor
  · rfl
  · intro hapi head hhead
    have hjson : request.pathname ∉ ["/", "/style.css", "/docs"] := by
      intro hmem
      simp only [List.mem_cons, List.mem_singleton, List.not_mem_nil, or_false] at hmem
      rcases hmem with h | h | h <;> rw [h] at hapi <;> revert hapi <;> decide
    rcases onRequest_shape rt assets pokedex request with
      ⟨hstatic, _⟩ | ⟨_, calls, st, body, hc, _, hrun⟩ |
      ⟨_, calls, st, body, _, hc, _, hrun, _⟩ | ⟨call, err, hc, _, hrun⟩
    · exact absurd hstatic hjson
    · rw [hrun] at hhead
      simp only [Run.heads, List.filterMap_append, (provider_calls_silent calls hc).1] at hhead
      simp at hhead
      rw [hhead]
    · rw [hrun] at hhead
      simp only [Run.heads, List.filterMap_append, (provider_calls_silent calls hc).1] at hhead
      simp at hhead
      rw [hhead]
    · rw [hrun] at hhead
      cases call <;> simp [Run.heads, Event.isProviderCall] at hhead hc

/-- C16 at `GET /api/types`, with `Accept: text/html` and with no `Accept` header: the same
run, whose one head is JSON. -/
theorem accept_has_no_effect_witness :
    onRequest Example.runtime Example.assets Example.pokedex
        ⟨"GET", "/api/types", none, some "text/html"⟩ =
      onRequest Example.runtime Example.assets Example.pokedex
        ⟨"GET", "/api/types", none, none⟩ ∧
    (onRequest Example.runtime Example.assets Example.pokedex
        ⟨"GET", "/api/types", none, none⟩).heads = [(200, "application/json", 36)] ∧
    ∀ head ∈ (onRequest Example.runtime Example.assets Example.pokedex
        ⟨"GET", "/api/types", none, none⟩).heads, head.2.1 = "application/json" :=
  ⟨(accept_has_no_effect Example.runtime Example.assets Example.pokedex
      ⟨"GET", "/api/types", none, none⟩ (some "text/html")).1,
    by decide,
    (accept_has_no_effect Example.runtime Example.assets Example.pokedex
      ⟨"GET", "/api/types", none, none⟩ (some "text/html")).2 (by decide)⟩

/-! ## One response per request -/

/-- Once the URL has parsed to a string pathname: when `getById` and `getTypes` return
normally (`getAll` may even throw), the run lets no exception escape, calls `writeHead` exactly
once with a status among 200, 400, 404 and 405, calls `end` exactly once, and ends with that
call. -/
theorem onRequest_one_response (rt : Runtime) (assets : HtmlResponses.Assets)
    (pokedex : Pokedex) (request : Request)
    (hid : ∀ id, ∃ found, pokedex.getById id = .ok found)
    (htypes : ∃ types, pokedex.getTypes = .ok types) :
    (onRequest rt assets pokedex request).thrown = none ∧
    (∃ status contentType contentLength,
      (onRequest rt assets pokedex request).heads = [(status, contentType, contentLength)] ∧
      status ∈ [200, 400, 404, 405]) ∧
    (onRequest rt assets pokedex request).ends = 1 ∧
    (onRequest rt assets pokedex request).events.getLast? = some .end_ := by
  rcases onRequest_shape rt assets pokedex request with
    ⟨_, ct, buffer, hrun⟩ | ⟨_, calls, st, body, hc, hst, hrun⟩ |
    ⟨_, calls, st, body, _, hc, hst, hrun, _⟩ | ⟨call, err, _, hthrow, _⟩
  · rw [hrun]
    simp [Run.heads, Run.ends]
  · rw [hrun]
    refine ⟨rfl, ⟨st, "application/json", byteLength (stringify body), ?_, hst⟩, ?_, ?_⟩
    · simp [Run.heads, List.filterMap_append, (provider_calls_silent calls hc).1]
    · simp [Run.ends, List.count_append, (provider_calls_silent calls hc).2.2]
    · simp [List.getLast?_append]
  · rw [hrun]
    refine ⟨rfl, ⟨st, "application/json", byteLength (stringify body), ?_, hst⟩, ?_, ?_⟩
    · simp [Run.heads, List.filterMap_append, (provider_calls_silent calls hc).1]
    · simp [Run.ends, List.count_append, (provider_calls_silent calls hc).2.2]
    · simp [List.getLast?_append]
  · exfalso
    rcases hthrow with ⟨id, hthrow⟩ | hthrow
    · obtain ⟨found, hfound⟩ := hid id
      rw [hfound] at hthrow
      cases hthrow
    · obtain ⟨types, hfound⟩ := htypes
      rw [hfound] at hthrow
      cases hthrow

/-- C17, as stated, fails at `GET http://[::1/x` over the example provider, all of whose
calls return normally: `url.parse` throws on this URL, the exception escapes the handler, and
the run holds no `writeHead` and no `end`. -/
theorem malformed_url_gets_no_response :
    (∀ opts, ∃ results, Example.pokedex.getAll opts = .ok results) ∧
    (∀ id, ∃ found, Example.pokedex.getById id = .ok found) ∧
    (∃ types, Example.pokedex.getTypes = .ok types) ∧
    Example.urlParse "http://[::1/x" = .error ⟨"Invalid URL"⟩ ∧
    onRequestFromUrl Example.urlParse Example.runtime Example.assets Example.pokedex
        ⟨"GET", "http://[::1/x", none⟩ =
      { events := [], thrown := some ⟨"Invalid URL"⟩ } ∧
    (onRequestFromUrl Example.urlParse Example.runtime Example.assets Example.pokedex
        ⟨"GET", "http://[::1/x", none⟩).heads = [] ∧
    (onRequestFromUrl Example.urlParse Example.runtime Example.assets Example.pokedex
        ⟨"GET", "http://[::1/x", none⟩).ends = 0 := by
  refine ⟨fun opts => ⟨_, rfl⟩, ?_, ⟨_, rfl⟩, by decide, by decide, by decide, by decide⟩
  intro id
  cases id with
  | none => exact ⟨_, rfl⟩
  | some v => cases v <;> exact ⟨_, rfl⟩

/-- C17, amended: for every request whose URL `url.parse` parses to a string pathname (any
method, query and headers) and every provider whose `getById` and `getTypes` return normally,
the handler lets no exception escape, calls `writeHead` exactly once with a status among 200,
400, 404 and 405, and calls `end` exactly once, as its last call. When `url.parse` throws, or
gives a `null` pathname, the handler writes nothing and the exception escapes it. -/
theorem exactly_one_response (urlParse : String → Except JSError UrlObject) (rt : Runtime)
    (assets : HtmlResponses.Assets) (pokedex : Pokedex) (request : IncomingMessage)
    (hid : ∀ id, ∃ found, pokedex.getById id = .ok found)
    (htypes : ∃ types, pokedex.getTypes = .ok types) :
    (∀ pathname query, urlParse request.url = .ok ⟨some pathname, query⟩ →
      (onRequestFromUrl urlParse rt assets pokedex request).thrown = none ∧
      (∃ status contentType contentLength,
        (onRequestFromUrl urlParse rt assets pokedex request).heads =
          [(status, contentType, contentLength)] ∧
        status ∈ [200, 400, 404, 405]) ∧
      (onRequestFromUrl urlParse rt assets pokedex request).ends = 1 ∧
      (onRequestFromUrl urlParse rt assets pokedex request).events.getLast? = some .end_) ∧
    (∀ err, urlParse request.url = .error err →
      onRequestFromUrl urlParse rt assets pokedex request =
        { events := [], thrown := some err }) ∧
    (∀ query, urlParse request.url = .ok ⟨none, query⟩ →
      (onRequestFromUrl urlParse rt assets pokedex request).events = [] ∧
      (onRequestFromUrl urlParse rt assets pokedex request).thrown ≠ none) := by
  refine ⟨?_, ?_, ?_⟩
  · intro pathname query hurl
    have hrun : onRequestFromUrl urlParse rt assets pokedex request =
        onRequest rt assets pokedex ⟨request.method, pathname, query, request.accept⟩ := by
      simp [onRequestFromUrl, hurl]
    rw [hrun]
    exact onRequest_one_response rt assets pokedex _ hid htypes
  · intro err hurl
    simp [onRequestFromUrl, hurl]
  · intro query hurl
    simp [onRequestFromUrl, hurl]

/-- C17 (amended) at `DELETE /api/pokemon/id` over the example provider: the URL parses to the
pathname `/api/pokemon/id`, and the run has one head, status 405, and one `end`. -/
theorem exactly_one_response_witness :
    Example.urlParse "/api/pokemon/id" = .ok ⟨some "/api/pokemon/id", none⟩ ∧
    (onRequestFromUrl Example.urlParse Example.runtime Example.assets Example.pokedex
        ⟨"DELETE", "/api/pokemon/id", none⟩).heads = [(405, "application/json", 56)] ∧
    (onRequestFromUrl Example.urlParse Example.runtime Example.assets Example.pokedex
        ⟨"DELETE", "/api/pokemon/id", none⟩).ends = 1 ∧
    (onRequestFromUrl Example.urlParse Example.runtime Example.assets Example.pokedex
        ⟨"DELETE", "/api/pokemon/id", none⟩).thrown = none :=
  have h := (exactly_one_response Example.urlParse Example.runtime Example.assets
    Example.pokedex ⟨"DELETE", "/api/pokemon/id", none⟩
    (fun id => by
      cases id with
      | none => exact ⟨_, rfl⟩
      | some v => cases v <;> exact ⟨_, rfl⟩)
    ⟨_, rfl⟩).1 "/api/pokemon/id" none (by decide)
  ⟨by decide, by decide, h.2.2.1, h.1⟩

/-! ## Start-up of the static responder -/

/-- C18: loading always yields the three buffers; each is the content read when its own read
succeeds and its fixed placeholder when its own read fails, whatever the other two reads
give. -/
theorem load_placeholders (reads : HtmlResponses.Reads) :
    (∀ b, reads.index = .ok b → (HtmlResponses.load reads).indexFile = b) ∧
    (∀ err, reads.index = .error err →
      (HtmlResponses.load reads).indexFile = Buffer.fromUtf8 "<h1>Client file not found</h1>") ∧
    (∀ b, reads.docs = .ok b → (HtmlResponses.load reads).docsFile = b) ∧
    (∀ err, reads.docs = .error err →
      (HtmlResponses.load reads).docsFile = Buffer.fromUtf8 "<h1>Docs file not found</h1>") ∧
    (∀ b, reads.css = .ok b → (HtmlResponses.load reads).cssFile = b) ∧
    (∀ err, reads.css = .error err →
      (HtmlResponses.load reads).cssFile =
        Buffer.fromUtf8 "body \x7b font-family: sans-serif; \x7d") ∧
    (∀ other : HtmlResponses.Reads,
      (other.index = reads.index →
        (HtmlResponses.load other).indexFile = (HtmlResponses.load reads).indexFile) ∧
      (other.docs = reads.docs →
        (HtmlResponses.load other).docsFile = (HtmlResponses.load reads).docsFile) ∧
      (other.css = reads.css →
        (HtmlResponses.load other).cssFile = (HtmlResponses.load reads).cssFile)) := by
  refine ⟨?_, ?_, ?_, ?_, ?_, ?_, ?_⟩
  · intro b h
    simp [HtmlResponses.load, h]
  · intro err h
    simp [HtmlResponses.load, h]
  · intro b h
    simp [HtmlResponses.load, h]
  · intro err h
    simp [HtmlResponses.load, h]
  · intro b h
    simp [HtmlResponses.load, h]
  · intro err h
    simp [HtmlResponses.load, h]
  · intro other
    refine ⟨?_, ?_, ?_⟩ <;> intro h <;> simp [HtmlResponses.load, h]

/-- C18 when only `docs.html` can be read: the index is the 30-byte placeholder, the docs page
is the file, the stylesheet is the 33-byte placeholder. -/
theorem load_placeholders_witness :
    (HtmlResponses.load Example.reads).indexFile =
      Buffer.fromUtf8 "<h1>Client file not found</h1>" ∧
    (HtmlResponses.load Example.reads).docsFile = Buffer.fromUtf8 "<p>docs</p>" ∧
    (HtmlResponses.load Example.reads).cssFile =
      Buffer.fromUtf8 "body \x7b font-family: sans-serif; \x7d" ∧
    (Buffer.fromUtf8 "<h1>Client file not found</h1>").length = 30 ∧
    (Buffer.fromUtf8 "body \x7b font-family: sans-serif; \x7d").length = 33 :=
  ⟨(load_placeholders Example.reads).2.1 ⟨"ENOENT"⟩ rfl,
    (load_placeholders Example.reads).2.2.1 _ rfl,
    (load_placeholders Example.reads).2.2.2.2.2.1 ⟨"ENOENT"⟩ rfl,
    by decide, by decide⟩

/-! ## Provider errors on the list endpoint -/

/-- C19: when the query passes validation and `getAll` throws, GET `/api/pokemon` answers 400
with `{message: <the message of that error>, id: "badRequest"}`, and HEAD answers 400
announcing the length of that body. -/
theorem provider_error_bad_request (rt : Runtime) (assets : HtmlResponses.Assets)
    (pokedex : Pokedex) (query accept : Option String) (opts : Options) (err : JSError)
    (hvalid : parsePokemonQuery (rt.querystringParse query) = .ok opts)
    (hthrow : pokedex.getAll opts = .error err) :
    onRequest rt assets pokedex ⟨"GET", "/api/pokemon", query, accept⟩ =
      { events :=
          [ .getAll opts,
            .writeHead 400 "application/json"
              (byteLength (stringify (errorBody err.message "badRequest"))),
            .write (.text (stringify (errorBody err.message "badRequest"))),
            .end_ ] } ∧
    onRequest rt assets pokedex ⟨"HEAD", "/api/pokemon", query, accept⟩ =
      { events :=
          [ .getAll opts,
            .writeHead 400 "application/json"
              (byteLength (stringify (errorBody err.message "badRequest"))),
            .end_ ] } := by
  constructor
  · rw [onRequest_pokemon]
    simp [listPokemonGet, hvalid, hthrow, sendJson]
  · rw [onRequest_pokemon]
    simp [listPokemonHead, hvalid, hthrow, headOnly]

/-- C19 at `GET /api/pokemon?limit=10&offset=0` over a provider whose `getAll` throws: the
limit and offset are valid and the answer is 400 `badRequest` with the provider's message. -/
theorem provider_error_bad_request_witness :
    parsePokemonQuery (Example.querystringParse (some "limit=10&offset=0")) =
      .ok ⟨none, none, .fin false 10 1, .fin false 0 1⟩ ∧
    onRequest Example.runtime Example.assets Example.failingPokedex
        ⟨"GET", "/api/pokemon", some "limit=10&offset=0", none⟩ =
      { events :=
          [ .getAll ⟨none, none, .fin false 10 1, .fin false 0 1⟩,
            .writeHead 400 "application/json" 51,
            .write (.text "\x7b\"message\":\"catalog unavailable\",\"id\":\"badRequest\"\x7d"),
            .end_ ] } :=
  ⟨by decide,
    (provider_error_bad_request Example.runtime Example.assets Example.failingPokedex
      (some "limit=10&offset=0") none ⟨none, none, .fin false 10 1, .fin false 0 1⟩
      ⟨"catalog unavailable"⟩ (by decide) rfl).1.trans (by decide)⟩

end Server
